import Mathlib

/-!
Verification development for the client-side geo-editing session controller
(the map editor script of the myHouse repository).

The script is embedded shallowly:

* GeoJSON values, overlays and cache entries become inductive data types;
* every function of the script becomes an executable Lean definition with the
  same name and the same control flow;
* module-level mutable variables become fields of an explicit `AppState`
  record, and every DOM event handler becomes a state-transition function
  `AppState -> AppState × List Request`, where the `Request` list records the
  HTTP requests the handler issued;
* network responses are supplied by an oracle (`Net`), and `Date.now()` by an
  explicit `now : Int` parameter, so that the asynchronous handlers become
  deterministic sequential functions (the page is single threaded and every
  handler in the script runs its awaits to completion).

Aspects that no listed property observes are abstracted: overlay styling
(colors, pixel offsets, css classes), DOM option lists of the three select
elements, the map viewport, and URI component escaping (identifiers are used
verbatim).  Coordinates are carried opaquely as integers: the script performs
no arithmetic on them, it only moves them between GeoJSON and overlays.
-/

/-- Coordinate pair as produced by the mapping SDK (`{lng, lat}`).  The script
never computes with coordinates, so an integer model is faithful. -/
structure LngLat where
  lng : Int
  lat : Int
deriving DecidableEq, Repr

/-- A linear ring or line path: a list of coordinate pairs. -/
abbrev GeoRing := List LngLat

/-- Property bag of a feature (`properties`), an association object whose
values the script only stores and compares (string model suffices). -/
abbrev Props := List (String × String)

/-- GeoJSON geometry, the six types handled by `createOverlaysFromFeature`. -/
inductive Geometry where
  | point (c : LngLat)
  | multiPoint (c : List LngLat)
  | lineString (c : List LngLat)
  | multiLineString (c : List GeoRing)
  | polygon (c : List GeoRing)
  | multiPolygon (c : List (List GeoRing))
deriving DecidableEq, Repr

/-- Type tag of a geometry, as the string stored in its `type` field. -/
def Geometry.typeName : Geometry → String
  | .point _ => "Point"
  | .multiPoint _ => "MultiPoint"
  | .lineString _ => "LineString"
  | .multiLineString _ => "MultiLineString"
  | .polygon _ => "Polygon"
  | .multiPolygon _ => "MultiPolygon"

/-- GeoJSON feature; both `geometry` and `properties` may be `null`. -/
structure Feature where
  geometry : Option Geometry
  properties : Option Props
deriving DecidableEq, Repr

/-- GeoJSON value as the script distinguishes it: a FeatureCollection, a bare
Feature, or a bare geometry object. -/
inductive GeoJSON where
  | featureCollection (features : List Feature)
  | feature (f : Feature)
  | geometryVal (g : Geometry)
deriving DecidableEq, Repr

/-- First value stored under a key in a property bag (JS object lookup). -/
def propsLookup (props : Props) (key : String) : Option String :=
  (props.find? (fun p => p.1 == key)).map (fun p => p.2)

/-- Translation of `cloneGeoJSON`: `obj ? JSON.parse(JSON.stringify(obj)) :
null`.  A deep copy of an immutable Lean value is the value itself. -/
def cloneGeoJSON (obj : Option GeoJSON) : Option GeoJSON := obj

/-- Translation of `geojson?.features?.length ?? 0`. -/
def featureCount (geojson : Option GeoJSON) : Nat :=
  match geojson with
  | some (.featureCollection fs) => fs.length
  | _ => 0

/-! ### Response cache -/

/-- The `CACHE_TTL_MS` constant: five minutes in milliseconds. -/
def CACHE_TTL_MS : Int := 5 * 60 * 1000

/-- A cache entry `{ ts, data }` as stored by `cacheSet`. -/
structure CacheEntry (α : Type) where
  ts : Int
  data : α
deriving DecidableEq, Repr

/-- A JS `Map` from string keys to cache entries, modelled as an association
list with unique keys in insertion order. -/
abbrev CacheMap (α : Type) := List (String × CacheEntry α)

/-- JS `map.get(key)`: first (and, keys being unique, only) entry under the
key. -/
def mapGet (m : CacheMap α) (k : String) : Option (CacheEntry α) :=
  match m with
  | [] => none
  | p :: rest => if p.1 == k then some p.2 else mapGet rest k

/-- JS `map.delete(key)`: removes the entry under the key, in place. -/
def mapDelete (m : CacheMap α) (k : String) : CacheMap α :=
  match m with
  | [] => []
  | p :: rest => if p.1 == k then mapDelete rest k else p :: mapDelete rest k

/-- JS `map.set(key, e)`: replaces the entry in place if the key is present
(keys are unique), otherwise appends it. -/
def mapSet (m : CacheMap α) (k : String) (e : CacheEntry α) : CacheMap α :=
  match m with
  | [] => [(k, e)]
  | p :: rest => if p.1 == k then (k, e) :: rest else p :: mapSet rest k e

/-- Translation of `cacheGet(map, key)`.  The JS function mutates the map
(deleting an expired entry), so the model returns the result together with
the updated map.  The `!map` guard is kept (first component of the input). -/
def cacheGet (m : Option (CacheMap α)) (key : String) (now : Int) :
    Option α × Option (CacheMap α) :=
  match m with
  | none => (none, none)
  | some mp =>
    match mapGet mp key with
    | none => (none, some mp)
    | some entry =>
      if now - entry.ts > CACHE_TTL_MS then
        (none, some (mapDelete mp key))
      else
        (some entry.data, some mp)

/-- Translation of `cacheSet(map, key, data)`. -/
def cacheSet (m : Option (CacheMap α)) (key : String) (data : α) (now : Int) :
    Option (CacheMap α) :=
  match m with
  | none => none
  | some mp => some (mapSet mp key ⟨now, data⟩)

/-- Convenience wrapper used where the script passes one of the six always
non-null `responseCache` maps. -/
def cset (m : CacheMap α) (key : String) (data : α) (now : Int) : CacheMap α :=
  (cacheSet (some m) key data now).getD m

/-! ### Network model -/

/-- Outcome of one `fetch` of a JSON endpoint: parsed data when `resp.ok`,
otherwise the non-success HTTP status. -/
inductive NetResult (α : Type) where
  | ok (data : α)
  | httpError (status : Nat)
deriving Repr

deriving instance DecidableEq for NetResult

deriving instance DecidableEq for Except

/-- An HTTP request issued by a handler, recorded for the frame properties
(which guards issue no network call). -/
inductive Request where
  | get (url : String)
  | post (url : String) (body : Option GeoJSON)
deriving DecidableEq, Repr

/-- Message of the error thrown by `fetchJsonWithCache` on a non-success
status. -/
def errMsg (status : Nat) : String := "请求失败:" ++ toString status

/-- Prefix test on character lists (helper for substring containment). -/
def prefixMatch : List Char → List Char → Bool
  | [], _ => true
  | _ :: _, [] => false
  | a :: as, b :: bs => a == b && prefixMatch as bs

/-- Containment of one character list in another, used to model
`String.prototype.includes`. -/
def hasInfix (needle : List Char) : List Char → Bool
  | [] => needle.isEmpty
  | c :: rest => prefixMatch needle (c :: rest) || hasInfix needle rest

/-- Translation of the `err.message.includes(404)` test used by the
points/items loaders. -/
def includes404 (msg : String) : Bool :=
  hasInfix "404".data msg.data

/-- Result of `fetchJsonWithCache`: the returned (or thrown) value, the cache
map after the call, and the requests issued. -/
structure FetchOut (α : Type) where
  result : Except String α
  cache : CacheMap α
  requests : List Request
deriving Repr

/-- Translation of `fetchJsonWithCache(url, cacheMap, cacheKey, force)`.
The network response for `url` is supplied by `net`; `now` stands for the
calls to `Date.now()` inside the cache helpers. -/
def fetchJsonWithCache (url : String) (cacheMap : CacheMap α) (cacheKey : String)
    (force : Bool) (net : NetResult α) (now : Int) : FetchOut α :=
  let probe : Option α × CacheMap α :=
    if force then (none, cacheMap)
    else
      let r := cacheGet (some cacheMap) cacheKey now
      (r.1, r.2.getD cacheMap)
  match probe with
  | (some cached, m) => ⟨.ok cached, m, []⟩
  | (none, m) =>
    match net with
    | .ok data => ⟨.ok data, cset m cacheKey data now, [.get url]⟩
    | .httpError s => ⟨.error (errMsg s), m, [.get url]⟩

/-! ### School filter -/

/-- Translation of `filterGeoJSONBySchool(geojson, schoolName)`.  A `none`
input stands for a null collection. -/
def filterGeoJSONBySchool (geojson : Option GeoJSON) (schoolName : String) :
    Option GeoJSON :=
  match geojson with
  | none => none
  | some g =>
    if schoolName = "" then some g
    else
      match g with
      | .featureCollection fs =>
        some (.featureCollection (fs.filter (fun f =>
          propsLookup (f.properties.getD []) "school_name" == some schoolName)))
      | other => some other

/-! ### Overlays -/

/-- Rendered map overlay: marker, polyline, or polygon, carrying its
`extData` property bag.  Markers additionally track their draggable flag
(points edit mode).  Styling options are presentational and not modelled. -/
inductive Overlay where
  | marker (position : LngLat) (extData : Props) (draggable : Bool)
  | polyline (path : List LngLat) (extData : Props)
  | polygon (path : List GeoRing) (extData : Props)
deriving DecidableEq, Repr

/-- Style options record passed around by the script.  Only presentational
fields live here, so the model keeps it as a placeholder record. -/
structure OverlayOptions where
  pointStyle : Option String := none
deriving DecidableEq, Repr

/-- Translation of `createOverlaysFromFeature(feature, options)`.  Both the
dot-styled and default marker branches construct a marker at the same
position with the same `extData`; markers are created non-draggable. -/
def createOverlaysFromFeature (feature : Feature) (options : OverlayOptions) :
    List Overlay :=
  match feature.geometry with
  | none => []
  | some g =>
    let props := feature.properties.getD []
    match g, options with
    | .point c, _ => [.marker c props false]
    | .multiPoint cs, _ => cs.map (fun p => .marker p props false)
    | .lineString cs, _ => [.polyline cs props]
    | .multiLineString ls, _ => ls.map (fun l => .polyline l props)
    | .polygon rs, _ => [.polygon rs props]
    | .multiPolygon ps, _ => ps.map (fun poly => .polygon poly props)

/-- Translation of `createOverlaysFromGeoJSON(geojson, options)`. -/
def createOverlaysFromGeoJSON (geojson : Option GeoJSON) (options : OverlayOptions) :
    List Overlay :=
  match geojson with
  | none => []
  | some (.featureCollection fs) =>
    fs.flatMap (fun f => createOverlaysFromFeature f options)
  | some (.feature f) => createOverlaysFromFeature f options
  | some (.geometryVal g) =>
    createOverlaysFromFeature ⟨some g, some []⟩ options

/-- Translation of `toLngLatArray(path)`: `path.map(p => [p.lng, p.lat])`. -/
def toLngLatArray (path : List LngLat) : List LngLat :=
  path.map (fun p => ⟨p.lng, p.lat⟩)

/-- Translation of `polygonPathToCoordinates(path)`.  In this script polygon
overlays are always constructed with a nested array of rings, so a non-empty
path always takes the `Array.isArray(path[0])` branch. -/
def polygonPathToCoordinates (path : List GeoRing) : List GeoRing :=
  match path with
  | [] => []
  | _ => path.map toLngLatArray

/-- Translation of the per-overlay body of `overlaysToGeoJSON`: the
`if / else if` chain keyed on the requested geometry type and the overlay's
runtime class. -/
def overlayToFeature (geometryType : String) (o : Overlay) : Option Feature :=
  match o with
  | .marker pos props _ =>
    if geometryType = "Point" then
      some ⟨some (.point ⟨pos.lng, pos.lat⟩), some props⟩
    else none
  | .polygon path props =>
    if geometryType = "Polygon" then
      some ⟨some (.polygon (polygonPathToCoordinates path)), some props⟩
    else none
  | .polyline path props =>
    if geometryType = "LineString" then
      some ⟨some (.lineString (toLngLatArray path)), some props⟩
    else none

/-- Translation of `overlaysToGeoJSON(overlays, geometryType)`. -/
def overlaysToGeoJSON (overlays : Option (List Overlay)) (geometryType : String) :
    GeoJSON :=
  match overlays with
  | none => .featureCollection []
  | some ovs => .featureCollection (ovs.filterMap (overlayToFeature geometryType))


/-! ### Application state -/

/-- One element of the `/api/history` listing. -/
structure HistoryVersion where
  save_id : String
  saved_at : Option String
deriving DecidableEq, Repr

/-- Payload of `/api/history/save_id`, as read by `applyHistoryData`.
`file_name` and `school_name` are strings whose emptiness the script tests
with JS truthiness; `polygons` and `points` may be absent. -/
structure HistorySnapshot where
  file_name : String
  school_name : String
  polygons : Option GeoJSON
  points : Option GeoJSON
deriving DecidableEq, Repr

/-- Network oracle: the response each endpoint would produce.  `saveAll`
carries the `errors` array on success and the `resp.text()` detail on a
non-success status. -/
structure Net where
  polygons : String → NetResult GeoJSON
  points : String → NetResult GeoJSON
  items : String → NetResult GeoJSON
  history : String → NetResult (List HistoryVersion)
  historyItem : String → NetResult HistorySnapshot
  index : NetResult (List String)
  save : String → NetResult Unit
  saveAll : Except String (List String)

/-- The module-level mutable variables of the script, together with the
relevant DOM control values (select values, checkbox states, status line)
and the six `responseCache` maps. -/
structure AppState where
  currentPolygonLayer : Option (List Overlay) := none
  currentPointsLayer : Option (List Overlay) := none
  currentItemsLayer : Option (List Overlay) := none
  polygonEditors : Nat := 0
  isPolygonEditing : Bool := false
  isPointsEditing : Bool := false
  originalPolygonGeoJSON : Option GeoJSON := none
  originalPointsGeoJSON : Option GeoJSON := none
  originalItemsGeoJSON : Option GeoJSON := none
  currentFileName : Option String := none
  currentFileSource : String := "server"
  fileSelectValue : String := ""
  schoolSelectValue : String := ""
  historySelectValue : String := ""
  showPoints : Bool := false
  showItems : Bool := false
  status : String := "未加载"
  cachePolygons : CacheMap GeoJSON := []
  cachePoints : CacheMap GeoJSON := []
  cacheItems : CacheMap GeoJSON := []
  cacheHistoryList : CacheMap (List HistoryVersion) := []
  cacheHistoryItem : CacheMap HistorySnapshot := []
  cacheIndex : CacheMap (List String) := []
deriving DecidableEq, Repr

/-- The state of the page when the script has just initialised (before the
initial `loadIndex()` call resolves). -/
def initState : AppState := {}

/-- Translation of `getSelectedSchool()`. -/
def getSelectedSchool (s : AppState) : String := s.schoolSelectValue

/-- Translation of `isSchoolFilterActive()`: JS truthiness of the selected
school name. -/
def isSchoolFilterActive (s : AppState) : Bool := getSelectedSchool s != ""

/-- Truthiness of `layer && layer.length` for an overlay array variable. -/
def layerHasOverlays (l : Option (List Overlay)) : Bool :=
  match l with
  | some (_ :: _) => true
  | _ => false

/-- Template-literal rendering of a possibly null string variable. -/
def optStr (o : Option String) : String := o.getD "null"

/-- Translation of `clearPolygonLayer()` (removal from the map surface is
the dropped reference itself). -/
def clearPolygonLayer (s : AppState) : AppState :=
  { s with currentPolygonLayer := none }

/-- Translation of `clearPointsLayer()`. -/
def clearPointsLayer (s : AppState) : AppState :=
  { s with currentPointsLayer := none }

/-- Translation of `clearItemsLayer()`. -/
def clearItemsLayer (s : AppState) : AppState :=
  { s with currentItemsLayer := none }

/-- Translation of `clearAllLayers()`. -/
def clearAllLayers (s : AppState) : AppState :=
  clearItemsLayer (clearPointsLayer (clearPolygonLayer s))

/-- Translation of `closePolygonEditors()`: closes every open editor handle
and leaves polygon edit mode. -/
def closePolygonEditors (s : AppState) : AppState :=
  { s with polygonEditors := 0, isPolygonEditing := false }

/-- Translation of `setMarkersDraggable(overlays, draggable)`. -/
def setMarkersDraggable (overlays : Option (List Overlay)) (draggable : Bool) :
    Option (List Overlay) :=
  overlays.map (fun l => l.map (fun o =>
    match o with
    | .marker p props _ => .marker p props draggable
    | other => other))

/-- Translation of `disableAllEditing()`. -/
def disableAllEditing (s : AppState) : AppState :=
  let s := closePolygonEditors s
  if s.isPointsEditing then
    { s with currentPointsLayer := setMarkersDraggable s.currentPointsLayer false,
             isPointsEditing := false }
  else s

/-- School suffix appended to the three render status messages. -/
def schoolTag (s : AppState) : String :=
  if getSelectedSchool s != "" then " | 校区: " ++ getSelectedSchool s else ""

/-- Translation of `renderGeoJSON(geojson, label, options)`. -/
def renderGeoJSON (s : AppState) (geojson : Option GeoJSON) (label : String)
    (skipOriginal : Bool) : AppState :=
  let s := clearPolygonLayer s
  let overlays := createOverlaysFromGeoJSON geojson {}
  let s := { s with
    currentPolygonLayer := some overlays,
    originalPolygonGeoJSON :=
      if skipOriginal then s.originalPolygonGeoJSON else cloneGeoJSON geojson }
  { s with status := "已加载: " ++ label ++ " (features: "
      ++ toString (featureCount geojson) ++ ")" ++ schoolTag s }

/-- Translation of `renderPointsGeoJSON(geojson, label, options)`. -/
def renderPointsGeoJSON (s : AppState) (geojson : Option GeoJSON) (label : String)
    (skipOriginal : Bool) : AppState :=
  let s := clearPointsLayer s
  let overlays := createOverlaysFromGeoJSON geojson { pointStyle := some "dot" }
  let s := { s with
    currentPointsLayer := some overlays,
    originalPointsGeoJSON :=
      if skipOriginal then s.originalPointsGeoJSON else cloneGeoJSON geojson }
  { s with status := "已加载点集: " ++ label ++ " (points: "
      ++ toString (featureCount geojson) ++ ")" ++ schoolTag s }

/-- Translation of `renderItemsGeoJSON(geojson, label, options)`. -/
def renderItemsGeoJSON (s : AppState) (geojson : Option GeoJSON) (label : String)
    (skipOriginal : Bool) : AppState :=
  let s := clearItemsLayer s
  let overlays := createOverlaysFromGeoJSON geojson {}
  let s := { s with
    currentItemsLayer := some overlays,
    originalItemsGeoJSON :=
      if skipOriginal then s.originalItemsGeoJSON else cloneGeoJSON geojson }
  { s with status := "已加载细分面: " ++ label ++ " (features: "
      ++ toString (featureCount geojson) ++ ")" ++ schoolTag s }

/-- Query string built by `loadHistoryList` with `URLSearchParams`
(`file_name` first, `school_name` appended only when a school is selected). -/
def historyQuery (file school : String) : String :=
  "file_name=" ++ file ++ (if school != "" then "&school_name=" ++ school else "")

/-- Translation of `loadHistoryList(force)`.  Returns the new state and the
requests issued.  Its internal try/catch means it never throws. -/
def loadHistoryList (net : Net) (now : Int) (force : Bool) (s : AppState) :
    AppState × List Request :=
  match s.currentFileName with
  | none => (s, [])
  | some file =>
    if s.currentFileSource != "server" then (s, [])
    else
      let cacheKey := historyQuery file (getSelectedSchool s)
      let out := fetchJsonWithCache ("/api/history?" ++ cacheKey)
        s.cacheHistoryList cacheKey force (net.history cacheKey) now
      let s := { s with cacheHistoryList := out.cache }
      match out.result with
      | .ok _items => (s, out.requests)
      | .error _ => ({ s with status := "历史列表读取失败" }, out.requests)

/-- Translation of `applyHistoryData(data, options)`. -/
def applyHistoryData (s : AppState) (data : HistorySnapshot) (asCurrent : Bool) :
    AppState :=
  let s := { s with
    currentFileName :=
      if data.file_name != "" then some data.file_name else s.currentFileName,
    currentFileSource := if asCurrent then "server" else "history",
    schoolSelectValue := data.school_name }
  let s := clearAllLayers s
  let label := optStr s.currentFileName ++ " (" ++ (if asCurrent then "恢复" else "历史") ++ ")"
  let s :=
    match data.polygons with
    | some p => renderGeoJSON s (some p) label (!asCurrent)
    | none => clearPolygonLayer s
  let s :=
    if s.showPoints && data.points.isSome then
      renderPointsGeoJSON s data.points label (!asCurrent)
    else clearPointsLayer s
  let s := clearItemsLayer s
  let s := if s.showItems then { s with status := "历史版本不包含细分面" } else s
  if asCurrent then { s with historySelectValue := "" } else s

/-- Translation of `loadHistoryById(saveId)`. -/
def loadHistoryById (net : Net) (now : Int) (saveId : String) (s : AppState) :
    AppState × List Request :=
  if saveId = "" then (s, [])
  else
    let s := { s with status := "加载历史版本中..." }
    let s := disableAllEditing s
    let s := clearAllLayers s
    let out := fetchJsonWithCache ("/api/history/" ++ saveId)
      s.cacheHistoryItem saveId false (net.historyItem saveId) now
    let s := { s with cacheHistoryItem := out.cache }
    match out.result with
    | .ok data => (applyHistoryData s data false, out.requests)
    | .error e => ({ s with status := "历史版本加载失败: " ++ e }, out.requests)

/-- Translation of `restoreHistoryAsCurrent()`.  The history item is read
with a plain `fetch` (no cache involvement); the thrown message on a
non-success status is the literal used in the source. -/
def restoreHistoryAsCurrent (net : Net) (now : Int) (s : AppState) :
    AppState × List Request :=
  if s.historySelectValue = "" then
    ({ s with status := "请先选择一个历史版本" }, [])
  else
    let s := { s with status := "正在恢复历史版本..." }
    let req := Request.get ("/api/history/" ++ s.historySelectValue)
    match net.historyItem s.historySelectValue with
    | .ok data =>
      let s := applyHistoryData s data true
      let s := { s with status := "已恢复为当前版本，可继续编辑并保存" }
      let r := loadHistoryList net now false s
      (r.1, req :: r.2)
    | .httpError _ =>
      ({ s with status := "恢复失败: 历史版本读取失败" }, [req])

/-- Translation of `saveGeoJSON(kind, geojson)`.  The first component tells
whether the body ran to completion (`.ok`) or threw (`.error message`); a
guard rejection returns `.ok` after only a status update, exactly like the
early `return` in the source. -/
def saveGeoJSON (net : Net) (now : Int) (kind : String) (geojson : GeoJSON)
    (s : AppState) : Except String Unit × AppState × List Request :=
  let guarded := s.currentFileName.isNone || s.currentFileSource != "server"
  if guarded then
    (.ok (), { s with status := "本地文件仅预览，无法保存到服务器" }, [])
  else
    let file := optStr s.currentFileName
    let endpoint :=
      if kind = "points" then "/api/points/" ++ file
      else if kind = "items" then "/api/items/" ++ file
      else "/api/polygons/" ++ file
    let s := { s with status := "保存中..." }
    let req := Request.post endpoint (some geojson)
    match net.save endpoint with
    | .httpError _ => (.error "保存失败", s, [req])
    | .ok _ =>
      let s :=
        if kind = "points" then
          { s with cachePoints := cset s.cachePoints file geojson now }
        else if kind = "items" then
          { s with cacheItems := cset s.cacheItems file geojson now }
        else
          { s with cachePolygons := cset s.cachePolygons file geojson now }
      (.ok (), { s with status := "保存成功" }, [req])

/-- Translation of `loadIndex(force)` (file list; select options are not
tracked). -/
def loadIndex (net : Net) (now : Int) (force : Bool) (s : AppState) :
    AppState × List Request :=
  let out := fetchJsonWithCache "/api/polygons" s.cacheIndex "index" force net.index now
  let s := { s with cacheIndex := out.cache }
  match out.result with
  | .ok files =>
    ({ s with status := "文件列表已刷新 (共 " ++ toString files.length ++ " 个)" },
     out.requests)
  | .error _ =>
    ({ s with status := "未能加载文件列表，请检查服务是否正常" }, out.requests)

/-- Translation of `loadPointsForFile(file)`.  The inner catch turns a 404
into an informative status and returns; every other failure reaches the
outer catch, so the function never throws. -/
def loadPointsForFile (net : Net) (now : Int) (file : String) (s : AppState) :
    AppState × List Request :=
  let out := fetchJsonWithCache ("/api/points/" ++ file)
    s.cachePoints file false (net.points file) now
  let s := { s with cachePoints := out.cache }
  match out.result with
  | .error msg =>
    if includes404 msg then
      ({ s with status := "点集文件不存在（请先生成 points 文件）" }, out.requests)
    else
      ({ s with status := "点集加载失败: " ++ msg }, out.requests)
  | .ok geojson =>
    let s := { s with originalPointsGeoJSON := cloneGeoJSON (some geojson) }
    let filtered := filterGeoJSONBySchool (some geojson) (getSelectedSchool s)
    (renderPointsGeoJSON s filtered file true, out.requests)

/-- Translation of `loadItemsForFile(file)`. -/
def loadItemsForFile (net : Net) (now : Int) (file : String) (s : AppState) :
    AppState × List Request :=
  let out := fetchJsonWithCache ("/api/items/" ++ file)
    s.cacheItems file false (net.items file) now
  let s := { s with cacheItems := out.cache }
  match out.result with
  | .error msg =>
    if includes404 msg then
      ({ s with status := "细分面文件不存在（请先生成 items 文件）" }, out.requests)
    else
      ({ s with status := "细分面加载失败: " ++ msg }, out.requests)
  | .ok geojson =>
    let s := { s with originalItemsGeoJSON := cloneGeoJSON (some geojson) }
    let filtered := filterGeoJSONBySchool (some geojson) (getSelectedSchool s)
    (renderItemsGeoJSON s filtered file true, out.requests)

/-- Translation of `loadSelectedFile()`.  Only the polygon fetch can throw
inside the try block (the helper loaders catch their own errors), so the
catch branch corresponds exactly to a polygon fetch failure. -/
def loadSelectedFile (net : Net) (now : Int) (s : AppState) :
    AppState × List Request :=
  let file := s.fileSelectValue
  if file = "" then (s, [])
  else
    let s := { s with currentFileName := some file, currentFileSource := "server" }
    let s := disableAllEditing s
    let s := { s with schoolSelectValue := "", historySelectValue := "" }
    let s := { s with status := "加载中..." }
    let s := clearAllLayers s
    let out := fetchJsonWithCache ("/api/polygons/" ++ file)
      s.cachePolygons file false (net.polygons file) now
    let s := { s with cachePolygons := out.cache }
    match out.result with
    | .error msg => ({ s with status := "加载失败: " ++ msg }, out.requests)
    | .ok geojson =>
      let s := renderGeoJSON s (some geojson) file false
      let r2 := if s.showPoints then loadPointsForFile net now file s else (s, [])
      let s := r2.1
      let r3 := if s.showItems then loadItemsForFile net now file s else (s, [])
      let s := r3.1
      let r4 := loadHistoryList net now false s
      (r4.1, out.requests ++ r2.2 ++ r3.2 ++ r4.2)

/-- Translation of `saveCurrentToDatabase()`. -/
def saveCurrentToDatabase (net : Net) (now : Int) (s : AppState) :
    AppState × List Request :=
  let s := { s with status := "正在保存全部数据到数据库..." }
  let req := Request.post "/api/save_all" none
  match net.saveAll with
  | .error detail => ({ s with status := "保存失败: " ++ detail }, [req])
  | .ok errors =>
    let s := { s with status :=
      if errors.length != 0 then
        "已保存到数据库，但有 " ++ toString errors.length ++ " 个文件失败"
      else "已保存到数据库" }
    if s.currentFileName.isSome && s.currentFileSource != "history" then
      let s := { s with cacheHistoryList := [] }
      let r := loadHistoryList net now true s
      (r.1, req :: r.2)
    else (s, [req])

/-- Translation of `togglePolygonEditing()`.  The `AMap.plugin` callback is
modelled as running synchronously; one editor handle is opened per polygon
overlay of the layer. -/
def togglePolygonEditing (s : AppState) : AppState :=
  if !layerHasOverlays s.currentPolygonLayer then
    { s with status := "未加载面数据，无法编辑" }
  else if isSchoolFilterActive s then
    { s with status := "请先切换到全部校区再编辑" }
  else if s.isPolygonEditing then
    closePolygonEditors s
  else
    let s := closePolygonEditors s
    let l := s.currentPolygonLayer.getD []
    let editors := (l.filter (fun o =>
      match o with
      | .polygon _ _ => true
      | _ => false)).length
    { s with polygonEditors := editors, isPolygonEditing := true,
             status := "面编辑已开启" }

/-- Translation of `togglePointsEditing()`. -/
def togglePointsEditing (s : AppState) : AppState :=
  if !layerHasOverlays s.currentPointsLayer then
    { s with status := "未加载点集，无法编辑" }
  else if isSchoolFilterActive s then
    { s with status := "请先切换到全部校区再编辑" }
  else
    let editing := !s.isPointsEditing
    { s with isPointsEditing := editing,
             currentPointsLayer := setMarkersDraggable s.currentPointsLayer editing,
             status := if editing then "点编辑已开启" else "点编辑已关闭" }

/-- Translation of `resetEdits()`. -/
def resetEdits (net : Net) (now : Int) (s : AppState) : AppState × List Request :=
  let s := disableAllEditing s
  if s.currentFileSource = "server" then
    loadSelectedFile net now s
  else
    let s :=
      match s.originalPolygonGeoJSON with
      | some _ =>
        renderGeoJSON (clearAllLayers s) s.originalPolygonGeoJSON
          (s.currentFileName.getD "本地文件") false
      | none => s
    let s :=
      if s.originalPointsGeoJSON.isSome && s.showPoints then
        renderPointsGeoJSON s s.originalPointsGeoJSON
          (s.currentFileName.getD "本地文件") false
      else s
    let s :=
      if s.originalItemsGeoJSON.isSome && s.showItems then
        renderItemsGeoJSON s s.originalItemsGeoJSON
          (s.currentFileName.getD "本地文件") false
      else s
    ({ s with status := "已撤销到原始数据" }, [])

/-- Translation of `applySchoolFilter()`.  The two conditional layer loads
are started without `await` in the source; in the single-threaded model they
run to completion in program order. -/
def applySchoolFilter (net : Net) (now : Int) (s : AppState) :
    AppState × List Request :=
  if s.historySelectValue != "" then
    ({ s with status := "历史版本模式下无法筛选" }, [])
  else
    let school := getSelectedSchool s
    let s :=
      match s.originalPolygonGeoJSON with
      | some _ =>
        renderGeoJSON s (filterGeoJSONBySchool s.originalPolygonGeoJSON school)
          (s.currentFileName.getD "文件") true
      | none => s
    let rPts :=
      if s.showPoints then
        if s.originalPointsGeoJSON.isSome then
          (renderPointsGeoJSON s (filterGeoJSONBySchool s.originalPointsGeoJSON school)
            (s.currentFileName.getD "文件") true, ([] : List Request))
        else if s.currentFileSource = "server" && s.currentFileName.isSome then
          loadPointsForFile net now (optStr s.currentFileName) s
        else (s, [])
      else (clearPointsLayer s, [])
    let s := rPts.1
    let rItems :=
      if s.showItems then
        if s.originalItemsGeoJSON.isSome then
          (renderItemsGeoJSON s (filterGeoJSONBySchool s.originalItemsGeoJSON school)
            (s.currentFileName.getD "文件") true, ([] : List Request))
        else if s.currentFileSource = "server" && s.currentFileName.isSome then
          loadItemsForFile net now (optStr s.currentFileName) s
        else (s, [])
      else (clearItemsLayer s, [])
    (rItems.1, rPts.2 ++ rItems.2)

/-- Integer fragment of the JS `Number(str)` coercion applied to the trimmed
parts of the coordinate prompt (the empty string coerces to 0; a
non-numeric string is NaN, modelled as `none`). -/
def jsNumber (str : String) : Option Int :=
  if str = "" then some 0 else str.toInt?

/-- Translation of the point-reposition branch of the popup click handler
bound by `bindOverlayPopup` for a marker of the points layer: while point
editing is on, a prompt asks for a new coordinate pair (a cancelled prompt
yields `none`, i.e. a falsy input). -/
def markerClickEdit (s : AppState) (idx : Nat) (input : Option String) : AppState :=
  match s.currentPointsLayer with
  | none => s
  | some l =>
    match l.get? idx with
    | some (.marker _pos props drag) =>
      if s.isPointsEditing then
        match input with
        | none => s
        | some str =>
          match (str.splitOn ",").map (fun p => p.trim) with
          | [a, b] =>
            (match jsNumber a, jsNumber b with
             | some lng, some lat =>
               { s with
                 currentPointsLayer := some (l.set idx (.marker ⟨lng, lat⟩ props drag)),
                 status := "坐标已更新，记得保存点集" }
             | _, _ => { s with status := "坐标必须为数字" })
          | _ => { s with status := "坐标格式错误，应为 lng,lat" }
      else s
    | _ => s

/-- A vertex edit performed through an open `AMap.PolyEditor` handle: the
mapping SDK mutates the path of the polygon overlay in place while polygon
editing is on. -/
def polygonVertexDrag (s : AppState) (idx : Nat) (newPath : List GeoRing) :
    AppState :=
  if s.isPolygonEditing then
    match s.currentPolygonLayer with
    | some l =>
      match l.get? idx with
      | some (.polygon _ props) =>
        { s with currentPolygonLayer := some (l.set idx (.polygon newPath props)) }
      | _ => s
    | none => s
  else s

/-- Translation of the `savePolygonBtn` click handler (including its
try/catch wrapper). -/
def savePolygonClickHandler (net : Net) (now : Int) (s : AppState) :
    AppState × List Request :=
  if isSchoolFilterActive s then
    ({ s with status := "请先切换到全部校区再保存" }, [])
  else if !layerHasOverlays s.currentPolygonLayer then
    ({ s with status := "未加载面数据，无法保存" }, [])
  else
    let geojson := overlaysToGeoJSON s.currentPolygonLayer "Polygon"
    let r := saveGeoJSON net now "polygons" geojson s
    match r.1 with
    | .ok _ =>
      ({ r.2.1 with originalPolygonGeoJSON := cloneGeoJSON (some geojson) }, r.2.2)
    | .error e =>
      ({ r.2.1 with status := "保存失败: " ++ e }, r.2.2)

/-- Translation of the `savePointsBtn` click handler. -/
def savePointsClickHandler (net : Net) (now : Int) (s : AppState) :
    AppState × List Request :=
  if isSchoolFilterActive s then
    ({ s with status := "请先切换到全部校区再保存" }, [])
  else if !layerHasOverlays s.currentPointsLayer then
    ({ s with status := "未加载点集，无法保存" }, [])
  else
    let geojson := overlaysToGeoJSON s.currentPointsLayer "Point"
    let r := saveGeoJSON net now "points" geojson s
    match r.1 with
    | .ok _ =>
      ({ r.2.1 with originalPointsGeoJSON := cloneGeoJSON (some geojson) }, r.2.2)
    | .error e =>
      ({ r.2.1 with status := "保存失败: " ++ e }, r.2.2)

/-- User-visible intents of the page, one per DOM event handler registered in
`initMap` plus the two in-map edit gestures.  `restoreHistoryClick` invokes
`restoreHistoryAsCurrent` (the markup has the button; the script defines the
handler function for it).  `openLocalFile` carries the parse result of the
chosen file (`none` models a `JSON.parse` failure). -/
inductive Event where
  | selectFile (value : String)
  | reloadClick
  | refreshListClick
  | togglePointsBox (checked : Bool)
  | toggleItemsBox (checked : Bool)
  | editPolygonClick
  | savePolygonClick
  | editPointsClick
  | savePointsClick
  | saveDbClick
  | resetEditsClick
  | selectSchool (value : String)
  | selectHistory (value : String)
  | restoreHistoryClick
  | openLocalFile (name : String) (parsed : Option GeoJSON)
  | markerPromptEdit (idx : Nat) (input : Option String)
  | polygonDrag (idx : Nat) (newPath : List GeoRing)
deriving DecidableEq, Repr

/-- One step of the session controller: dispatch of a DOM event to its
handler, returning the successor state and the HTTP requests issued while
handling it. -/
def step (net : Net) (now : Int) (s : AppState) (e : Event) :
    AppState × List Request :=
  match e with
  | .selectFile v =>
    loadSelectedFile net now { s with fileSelectValue := v }
  | .reloadClick =>
    loadSelectedFile net now s
  | .refreshListClick =>
    loadIndex net now true s
  | .togglePointsBox checked =>
    let s := { s with showPoints := checked }
    if checked then
      if s.fileSelectValue != "" then loadPointsForFile net now s.fileSelectValue s
      else (s, [])
    else (clearPointsLayer s, [])
  | .toggleItemsBox checked =>
    let s := { s with showItems := checked }
    if checked then
      if s.fileSelectValue != "" then loadItemsForFile net now s.fileSelectValue s
      else (s, [])
    else (clearItemsLayer s, [])
  | .editPolygonClick => (togglePolygonEditing s, [])
  | .savePolygonClick => savePolygonClickHandler net now s
  | .editPointsClick => (togglePointsEditing s, [])
  | .savePointsClick => savePointsClickHandler net now s
  | .saveDbClick => saveCurrentToDatabase net now s
  | .resetEditsClick => resetEdits net now s
  | .selectSchool v =>
    let s := { s with schoolSelectValue := v }
    let s := disableAllEditing s
    let s := { s with historySelectValue := "" }
    let r1 := applySchoolFilter net now s
    let r2 := loadHistoryList net now false r1.1
    (r2.1, r1.2 ++ r2.2)
  | .selectHistory v =>
    let s := { s with historySelectValue := v }
    let s := disableAllEditing s
    if v = "" then
      loadSelectedFile net now { s with currentFileSource := "server" }
    else
      loadHistoryById net now v s
  | .restoreHistoryClick => restoreHistoryAsCurrent net now s
  | .openLocalFile name parsed =>
    match parsed with
    | none => ({ s with status := "本地文件解析失败" }, [])
    | some geojson =>
      let s := { s with currentFileName := some name, currentFileSource := "local" }
      let s := disableAllEditing s
      let s := { s with schoolSelectValue := "", historySelectValue := "" }
      let s := clearAllLayers s
      (renderGeoJSON s (some geojson) name false, [])
  | .markerPromptEdit idx input => (markerClickEdit s idx input, [])
  | .polygonDrag idx newPath => (polygonVertexDrag s idx newPath, [])

/-- Run a list of timestamped events from a state, collecting all requests. -/
def runEvents (net : Net) (events : List (Int × Event)) (s : AppState) :
    AppState × List Request :=
  match events with
  | [] => (s, [])
  | (now, e) :: rest =>
    let r := step net now s e
    let r2 := runEvents net rest r.1
    (r2.1, r.2 ++ r2.2)


/-! ### Projection lemmas for the state helpers, used to keep record
reasoning compositional in the session-controller proofs. -/

@[simp] theorem clearPolygonLayer_currentPolygonLayer (s : AppState) :
    (clearPolygonLayer s).currentPolygonLayer = none := rfl

@[simp] theorem clearPolygonLayer_currentPointsLayer (s : AppState) :
    (clearPolygonLayer s).currentPointsLayer = s.currentPointsLayer := rfl

@[simp] theorem clearPolygonLayer_currentItemsLayer (s : AppState) :
    (clearPolygonLayer s).currentItemsLayer = s.currentItemsLayer := rfl

@[simp] theorem clearPolygonLayer_polygonEditors (s : AppState) :
    (clearPolygonLayer s).polygonEditors = s.polygonEditors := rfl

@[simp] theorem clearPolygonLayer_isPolygonEditing (s : AppState) :
    (clearPolygonLayer s).isPolygonEditing = s.isPolygonEditing := rfl

@[simp] theorem clearPolygonLayer_isPointsEditing (s : AppState) :
    (clearPolygonLayer s).isPointsEditing = s.isPointsEditing := rfl

@[simp] theorem clearPolygonLayer_originalPolygonGeoJSON (s : AppState) :
    (clearPolygonLayer s).originalPolygonGeoJSON = s.originalPolygonGeoJSON := rfl

@[simp] theorem clearPolygonLayer_originalPointsGeoJSON (s : AppState) :
    (clearPolygonLayer s).originalPointsGeoJSON = s.originalPointsGeoJSON := rfl

@[simp] theorem clearPolygonLayer_originalItemsGeoJSON (s : AppState) :
    (clearPolygonLayer s).originalItemsGeoJSON = s.originalItemsGeoJSON := rfl

@[simp] theorem clearPolygonLayer_currentFileName (s : AppState) :
    (clearPolygonLayer s).currentFileName = s.currentFileName := rfl

@[simp] theorem clearPolygonLayer_currentFileSource (s : AppState) :
    (clearPolygonLayer s).currentFileSource = s.currentFileSource := rfl

@[simp] theorem clearPolygonLayer_fileSelectValue (s : AppState) :
    (clearPolygonLayer s).fileSelectValue = s.fileSelectValue := rfl

@[simp] theorem clearPolygonLayer_schoolSelectValue (s : AppState) :
    (clearPolygonLayer s).schoolSelectValue = s.schoolSelectValue := rfl

@[simp] theorem clearPolygonLayer_historySelectValue (s : AppState) :
    (clearPolygonLayer s).historySelectValue = s.historySelectValue := rfl

@[simp] theorem clearPolygonLayer_showPoints (s : AppState) :
    (clearPolygonLayer s).showPoints = s.showPoints := rfl

@[simp] theorem clearPolygonLayer_showItems (s : AppState) :
    (clearPolygonLayer s).showItems = s.showItems := rfl

@[simp] theorem clearPolygonLayer_status (s : AppState) :
    (clearPolygonLayer s).status = s.status := rfl

@[simp] theorem clearPolygonLayer_cachePolygons (s : AppState) :
    (clearPolygonLayer s).cachePolygons = s.cachePolygons := rfl

@[simp] theorem clearPolygonLayer_cachePoints (s : AppState) :
    (clearPolygonLayer s).cachePoints = s.cachePoints := rfl

@[simp] theorem clearPolygonLayer_cacheItems (s : AppState) :
    (clearPolygonLayer s).cacheItems = s.cacheItems := rfl

@[simp] theorem clearPolygonLayer_cacheHistoryList (s : AppState) :
    (clearPolygonLayer s).cacheHistoryList = s.cacheHistoryList := rfl

@[simp] theorem clearPolygonLayer_cacheHistoryItem (s : AppState) :
    (clearPolygonLayer s).cacheHistoryItem = s.cacheHistoryItem := rfl

@[simp] theorem clearPolygonLayer_cacheIndex (s : AppState) :
    (clearPolygonLayer s).cacheIndex = s.cacheIndex := rfl

@[simp] theorem clearPointsLayer_currentPolygonLayer (s : AppState) :
    (clearPointsLayer s).currentPolygonLayer = s.currentPolygonLayer := rfl

@[simp] theorem clearPointsLayer_currentPointsLayer (s : AppState) :
    (clearPointsLayer s).currentPointsLayer = none := rfl

@[simp] theorem clearPointsLayer_currentItemsLayer (s : AppState) :
    (clearPointsLayer s).currentItemsLayer = s.currentItemsLayer := rfl

@[simp] theorem clearPointsLayer_polygonEditors (s : AppState) :
    (clearPointsLayer s).polygonEditors = s.polygonEditors := rfl

@[simp] theorem clearPointsLayer_isPolygonEditing (s : AppState) :
    (clearPointsLayer s).isPolygonEditing = s.isPolygonEditing := rfl

@[simp] theorem clearPointsLayer_isPointsEditing (s : AppState) :
    (clearPointsLayer s).isPointsEditing = s.isPointsEditing := rfl

@[simp] theorem clearPointsLayer_originalPolygonGeoJSON (s : AppState) :
    (clearPointsLayer s).originalPolygonGeoJSON = s.originalPolygonGeoJSON := rfl

@[simp] theorem clearPointsLayer_originalPointsGeoJSON (s : AppState) :
    (clearPointsLayer s).originalPointsGeoJSON = s.originalPointsGeoJSON := rfl

@[simp] theorem clearPointsLayer_originalItemsGeoJSON (s : AppState) :
    (clearPointsLayer s).originalItemsGeoJSON = s.originalItemsGeoJSON := rfl

@[simp] theorem clearPointsLayer_currentFileName (s : AppState) :
    (clearPointsLayer s).currentFileName = s.currentFileName := rfl

@[simp] theorem clearPointsLayer_currentFileSource (s : AppState) :
    (clearPointsLayer s).currentFileSource = s.currentFileSource := rfl

@[simp] theorem clearPointsLayer_fileSelectValue (s : AppState) :
    (clearPointsLayer s).fileSelectValue = s.fileSelectValue := rfl

@[simp] theorem clearPointsLayer_schoolSelectValue (s : AppState) :
    (clearPointsLayer s).schoolSelectValue = s.schoolSelectValue := rfl

@[simp] theorem clearPointsLayer_historySelectValue (s : AppState) :
    (clearPointsLayer s).historySelectValue = s.historySelectValue := rfl

@[simp] theorem clearPointsLayer_showPoints (s : AppState) :
    (clearPointsLayer s).showPoints = s.showPoints := rfl

@[simp] theorem clearPointsLayer_showItems (s : AppState) :
    (clearPointsLayer s).showItems = s.showItems := rfl

@[simp] theorem clearPointsLayer_status (s : AppState) :
    (clearPointsLayer s).status = s.status := rfl

@[simp] theorem clearPointsLayer_cachePolygons (s : AppState) :
    (clearPointsLayer s).cachePolygons = s.cachePolygons := rfl

@[simp] theorem clearPointsLayer_cachePoints (s : AppState) :
    (clearPointsLayer s).cachePoints = s.cachePoints := rfl

@[simp] theorem clearPointsLayer_cacheItems (s : AppState) :
    (clearPointsLayer s).cacheItems = s.cacheItems := rfl

@[simp] theorem clearPointsLayer_cacheHistoryList (s : AppState) :
    (clearPointsLayer s).cacheHistoryList = s.cacheHistoryList := rfl

@[simp] theorem clearPointsLayer_cacheHistoryItem (s : AppState) :
    (clearPointsLayer s).cacheHistoryItem = s.cacheHistoryItem := rfl

@[simp] theorem clearPointsLayer_cacheIndex (s : AppState) :
    (clearPointsLayer s).cacheIndex = s.cacheIndex := rfl

@[simp] theorem clearItemsLayer_currentPolygonLayer (s : AppState) :
    (clearItemsLayer s).currentPolygonLayer = s.currentPolygonLayer := rfl

@[simp] theorem clearItemsLayer_currentPointsLayer (s : AppState) :
    (clearItemsLayer s).currentPointsLayer = s.currentPointsLayer := rfl

@[simp] theorem clearItemsLayer_currentItemsLayer (s : AppState) :
    (clearItemsLayer s).currentItemsLayer = none := rfl

@[simp] theorem clearItemsLayer_polygonEditors (s : AppState) :
    (clearItemsLayer s).polygonEditors = s.polygonEditors := rfl

@[simp] theorem clearItemsLayer_isPolygonEditing (s : AppState) :
    (clearItemsLayer s).isPolygonEditing = s.isPolygonEditing := rfl

@[simp] theorem clearItemsLayer_isPointsEditing (s : AppState) :
    (clearItemsLayer s).isPointsEditing = s.isPointsEditing := rfl

@[simp] theorem clearItemsLayer_originalPolygonGeoJSON (s : AppState) :
    (clearItemsLayer s).originalPolygonGeoJSON = s.originalPolygonGeoJSON := rfl

@[simp] theorem clearItemsLayer_originalPointsGeoJSON (s : AppState) :
    (clearItemsLayer s).originalPointsGeoJSON = s.originalPointsGeoJSON := rfl

@[simp] theorem clearItemsLayer_originalItemsGeoJSON (s : AppState) :
    (clearItemsLayer s).originalItemsGeoJSON = s.originalItemsGeoJSON := rfl

@[simp] theorem clearItemsLayer_currentFileName (s : AppState) :
    (clearItemsLayer s).currentFileName = s.currentFileName := rfl

@[simp] theorem clearItemsLayer_currentFileSource (s : AppState) :
    (clearItemsLayer s).currentFileSource = s.currentFileSource := rfl

@[simp] theorem clearItemsLayer_fileSelectValue (s : AppState) :
    (clearItemsLayer s).fileSelectValue = s.fileSelectValue := rfl

@[simp] theorem clearItemsLayer_schoolSelectValue (s : AppState) :
    (clearItemsLayer s).schoolSelectValue = s.schoolSelectValue := rfl

@[simp] theorem clearItemsLayer_historySelectValue (s : AppState) :
    (clearItemsLayer s).historySelectValue = s.historySelectValue := rfl

@[simp] theorem clearItemsLayer_showPoints (s : AppState) :
    (clearItemsLayer s).showPoints = s.showPoints := rfl

@[simp] theorem clearItemsLayer_showItems (s : AppState) :
    (clearItemsLayer s).showItems = s.showItems := rfl

@[simp] theorem clearItemsLayer_status (s : AppState) :
    (clearItemsLayer s).status = s.status := rfl

@[simp] theorem clearItemsLayer_cachePolygons (s : AppState) :
    (clearItemsLayer s).cachePolygons = s.cachePolygons := rfl

@[simp] theorem clearItemsLayer_cachePoints (s : AppState) :
    (clearItemsLayer s).cachePoints = s.cachePoints := rfl

@[simp] theorem clearItemsLayer_cacheItems (s : AppState) :
    (clearItemsLayer s).cacheItems = s.cacheItems := rfl

@[simp] theorem clearItemsLayer_cacheHistoryList (s : AppState) :
    (clearItemsLayer s).cacheHistoryList = s.cacheHistoryList := rfl

@[simp] theorem clearItemsLayer_cacheHistoryItem (s : AppState) :
    (clearItemsLayer s).cacheHistoryItem = s.cacheHistoryItem := rfl

@[simp] theorem clearItemsLayer_cacheIndex (s : AppState) :
    (clearItemsLayer s).cacheIndex = s.cacheIndex := rfl

@[simp] theorem clearAllLayers_currentPolygonLayer (s : AppState) :
    (clearAllLayers s).currentPolygonLayer = none := rfl

@[simp] theorem clearAllLayers_currentPointsLayer (s : AppState) :
    (clearAllLayers s).currentPointsLayer = none := rfl

@[simp] theorem clearAllLayers_currentItemsLayer (s : AppState) :
    (clearAllLayers s).currentItemsLayer = none := rfl

@[simp] theorem clearAllLayers_polygonEditors (s : AppState) :
    (clearAllLayers s).polygonEditors = s.polygonEditors := rfl

@[simp] theorem clearAllLayers_isPolygonEditing (s : AppState) :
    (clearAllLayers s).isPolygonEditing = s.isPolygonEditing := rfl

@[simp] theorem clearAllLayers_isPointsEditing (s : AppState) :
    (clearAllLayers s).isPointsEditing = s.isPointsEditing := rfl

@[simp] theorem clearAllLayers_originalPolygonGeoJSON (s : AppState) :
    (clearAllLayers s).originalPolygonGeoJSON = s.originalPolygonGeoJSON := rfl

@[simp] theorem clearAllLayers_originalPointsGeoJSON (s : AppState) :
    (clearAllLayers s).originalPointsGeoJSON = s.originalPointsGeoJSON := rfl

@[simp] theorem clearAllLayers_originalItemsGeoJSON (s : AppState) :
    (clearAllLayers s).originalItemsGeoJSON = s.originalItemsGeoJSON := rfl

@[simp] theorem clearAllLayers_currentFileName (s : AppState) :
    (clearAllLayers s).currentFileName = s.currentFileName := rfl

@[simp] theorem clearAllLayers_currentFileSource (s : AppState) :
    (clearAllLayers s).currentFileSource = s.currentFileSource := rfl

@[simp] theorem clearAllLayers_fileSelectValue (s : AppState) :
    (clearAllLayers s).fileSelectValue = s.fileSelectValue := rfl

@[simp] theorem clearAllLayers_schoolSelectValue (s : AppState) :
    (clearAllLayers s).schoolSelectValue = s.schoolSelectValue := rfl

@[simp] theorem clearAllLayers_historySelectValue (s : AppState) :
    (clearAllLayers s).historySelectValue = s.historySelectValue := rfl

@[simp] theorem clearAllLayers_showPoints (s : AppState) :
    (clearAllLayers s).showPoints = s.showPoints := rfl

@[simp] theorem clearAllLayers_showItems (s : AppState) :
    (clearAllLayers s).showItems = s.showItems := rfl

@[simp] theorem clearAllLayers_status (s : AppState) :
    (clearAllLayers s).status = s.status := rfl

@[simp] theorem clearAllLayers_cachePolygons (s : AppState) :
    (clearAllLayers s).cachePolygons = s.cachePolygons := rfl

@[simp] theorem clearAllLayers_cachePoints (s : AppState) :
    (clearAllLayers s).cachePoints = s.cachePoints := rfl

@[simp] theorem clearAllLayers_cacheItems (s : AppState) :
    (clearAllLayers s).cacheItems = s.cacheItems := rfl

@[simp] theorem clearAllLayers_cacheHistoryList (s : AppState) :
    (clearAllLayers s).cacheHistoryList = s.cacheHistoryList := rfl

@[simp] theorem clearAllLayers_cacheHistoryItem (s : AppState) :
    (clearAllLayers s).cacheHistoryItem = s.cacheHistoryItem := rfl

@[simp] theorem clearAllLayers_cacheIndex (s : AppState) :
    (clearAllLayers s).cacheIndex = s.cacheIndex := rfl

@[simp] theorem closePolygonEditors_currentPolygonLayer (s : AppState) :
    (closePolygonEditors s).currentPolygonLayer = s.currentPolygonLayer := rfl

@[simp] theorem closePolygonEditors_currentPointsLayer (s : AppState) :
    (closePolygonEditors s).currentPointsLayer = s.currentPointsLayer := rfl

@[simp] theorem closePolygonEditors_currentItemsLayer (s : AppState) :
    (closePolygonEditors s).currentItemsLayer = s.currentItemsLayer := rfl

@[simp] theorem closePolygonEditors_polygonEditors (s : AppState) :
    (closePolygonEditors s).polygonEditors = 0 := rfl

@[simp] theorem closePolygonEditors_isPolygonEditing (s : AppState) :
    (closePolygonEditors s).isPolygonEditing = false := rfl

@[simp] theorem closePolygonEditors_isPointsEditing (s : AppState) :
    (closePolygonEditors s).isPointsEditing = s.isPointsEditing := rfl

@[simp] theorem closePolygonEditors_originalPolygonGeoJSON (s : AppState) :
    (closePolygonEditors s).originalPolygonGeoJSON = s.originalPolygonGeoJSON := rfl

@[simp] theorem closePolygonEditors_originalPointsGeoJSON (s : AppState) :
    (closePolygonEditors s).originalPointsGeoJSON = s.originalPointsGeoJSON := rfl

@[simp] theorem closePolygonEditors_originalItemsGeoJSON (s : AppState) :
    (closePolygonEditors s).originalItemsGeoJSON = s.originalItemsGeoJSON := rfl

@[simp] theorem closePolygonEditors_currentFileName (s : AppState) :
    (closePolygonEditors s).currentFileName = s.currentFileName := rfl

@[simp] theorem closePolygonEditors_currentFileSource (s : AppState) :
    (closePolygonEditors s).currentFileSource = s.currentFileSource := rfl

@[simp] theorem closePolygonEditors_fileSelectValue (s : AppState) :
    (closePolygonEditors s).fileSelectValue = s.fileSelectValue := rfl

@[simp] theorem closePolygonEditors_schoolSelectValue (s : AppState) :
    (closePolygonEditors s).schoolSelectValue = s.schoolSelectValue := rfl

@[simp] theorem closePolygonEditors_historySelectValue (s : AppState) :
    (closePolygonEditors s).historySelectValue = s.historySelectValue := rfl

@[simp] theorem closePolygonEditors_showPoints (s : AppState) :
    (closePolygonEditors s).showPoints = s.showPoints := rfl

@[simp] theorem closePolygonEditors_showItems (s : AppState) :
    (closePolygonEditors s).showItems = s.showItems := rfl

@[simp] theorem closePolygonEditors_status (s : AppState) :
    (closePolygonEditors s).status = s.status := rfl

@[simp] theorem closePolygonEditors_cachePolygons (s : AppState) :
    (closePolygonEditors s).cachePolygons = s.cachePolygons := rfl

@[simp] theorem closePolygonEditors_cachePoints (s : AppState) :
    (closePolygonEditors s).cachePoints = s.cachePoints := rfl

@[simp] theorem closePolygonEditors_cacheItems (s : AppState) :
    (closePolygonEditors s).cacheItems = s.cacheItems := rfl

@[simp] theorem closePolygonEditors_cacheHistoryList (s : AppState) :
    (closePolygonEditors s).cacheHistoryList = s.cacheHistoryList := rfl

@[simp] theorem closePolygonEditors_cacheHistoryItem (s : AppState) :
    (closePolygonEditors s).cacheHistoryItem = s.cacheHistoryItem := rfl

@[simp] theorem closePolygonEditors_cacheIndex (s : AppState) :
    (closePolygonEditors s).cacheIndex = s.cacheIndex := rfl

@[simp] theorem renderGeoJSON_currentPolygonLayer (s : AppState) (g : Option GeoJSON) (lb : String) (sk : Bool) :
    (renderGeoJSON s g lb sk).currentPolygonLayer = some (createOverlaysFromGeoJSON g {}) := rfl

@[simp] theorem renderGeoJSON_currentPointsLayer (s : AppState) (g : Option GeoJSON) (lb : String) (sk : Bool) :
    (renderGeoJSON s g lb sk).currentPointsLayer = s.currentPointsLayer := rfl

@[simp] theorem renderGeoJSON_currentItemsLayer (s : AppState) (g : Option GeoJSON) (lb : String) (sk : Bool) :
    (renderGeoJSON s g lb sk).currentItemsLayer = s.currentItemsLayer := rfl

@[simp] theorem renderGeoJSON_polygonEditors (s : AppState) (g : Option GeoJSON) (lb : String) (sk : Bool) :
    (renderGeoJSON s g lb sk).polygonEditors = s.polygonEditors := rfl

@[simp] theorem renderGeoJSON_isPolygonEditing (s : AppState) (g : Option GeoJSON) (lb : String) (sk : Bool) :
    (renderGeoJSON s g lb sk).isPolygonEditing = s.isPolygonEditing := rfl

@[simp] theorem renderGeoJSON_isPointsEditing (s : AppState) (g : Option GeoJSON) (lb : String) (sk : Bool) :
    (renderGeoJSON s g lb sk).isPointsEditing = s.isPointsEditing := rfl

@[simp] theorem renderGeoJSON_originalPolygonGeoJSON (s : AppState) (g : Option GeoJSON) (lb : String) (sk : Bool) :
    (renderGeoJSON s g lb sk).originalPolygonGeoJSON = if sk then s.originalPolygonGeoJSON else cloneGeoJSON g := rfl

@[simp] theorem renderGeoJSON_originalPointsGeoJSON (s : AppState) (g : Option GeoJSON) (lb : String) (sk : Bool) :
    (renderGeoJSON s g lb sk).originalPointsGeoJSON = s.originalPointsGeoJSON := rfl

@[simp] theorem renderGeoJSON_originalItemsGeoJSON (s : AppState) (g : Option GeoJSON) (lb : String) (sk : Bool) :
    (renderGeoJSON s g lb sk).originalItemsGeoJSON = s.originalItemsGeoJSON := rfl

@[simp] theorem renderGeoJSON_currentFileName (s : AppState) (g : Option GeoJSON) (lb : String) (sk : Bool) :
    (renderGeoJSON s g lb sk).currentFileName = s.currentFileName := rfl

@[simp] theorem renderGeoJSON_currentFileSource (s : AppState) (g : Option GeoJSON) (lb : String) (sk : Bool) :
    (renderGeoJSON s g lb sk).currentFileSource = s.currentFileSource := rfl

@[simp] theorem renderGeoJSON_fileSelectValue (s : AppState) (g : Option GeoJSON) (lb : String) (sk : Bool) :
    (renderGeoJSON s g lb sk).fileSelectValue = s.fileSelectValue := rfl

@[simp] theorem renderGeoJSON_schoolSelectValue (s : AppState) (g : Option GeoJSON) (lb : String) (sk : Bool) :
    (renderGeoJSON s g lb sk).schoolSelectValue = s.schoolSelectValue := rfl

@[simp] theorem renderGeoJSON_historySelectValue (s : AppState) (g : Option GeoJSON) (lb : String) (sk : Bool) :
    (renderGeoJSON s g lb sk).historySelectValue = s.historySelectValue := rfl

@[simp] theorem renderGeoJSON_showPoints (s : AppState) (g : Option GeoJSON) (lb : String) (sk : Bool) :
    (renderGeoJSON s g lb sk).showPoints = s.showPoints := rfl

@[simp] theorem renderGeoJSON_showItems (s : AppState) (g : Option GeoJSON) (lb : String) (sk : Bool) :
    (renderGeoJSON s g lb sk).showItems = s.showItems := rfl

@[simp] theorem renderGeoJSON_cachePolygons (s : AppState) (g : Option GeoJSON) (lb : String) (sk : Bool) :
    (renderGeoJSON s g lb sk).cachePolygons = s.cachePolygons := rfl

@[simp] theorem renderGeoJSON_cachePoints (s : AppState) (g : Option GeoJSON) (lb : String) (sk : Bool) :
    (renderGeoJSON s g lb sk).cachePoints = s.cachePoints := rfl

@[simp] theorem renderGeoJSON_cacheItems (s : AppState) (g : Option GeoJSON) (lb : String) (sk : Bool) :
    (renderGeoJSON s g lb sk).cacheItems = s.cacheItems := rfl

@[simp] theorem renderGeoJSON_cacheHistoryList (s : AppState) (g : Option GeoJSON) (lb : String) (sk : Bool) :
    (renderGeoJSON s g lb sk).cacheHistoryList = s.cacheHistoryList := rfl

@[simp] theorem renderGeoJSON_cacheHistoryItem (s : AppState) (g : Option GeoJSON) (lb : String) (sk : Bool) :
    (renderGeoJSON s g lb sk).cacheHistoryItem = s.cacheHistoryItem := rfl

@[simp] theorem renderGeoJSON_cacheIndex (s : AppState) (g : Option GeoJSON) (lb : String) (sk : Bool) :
    (renderGeoJSON s g lb sk).cacheIndex = s.cacheIndex := rfl

@[simp] theorem renderPointsGeoJSON_currentPolygonLayer (s : AppState) (g : Option GeoJSON) (lb : String) (sk : Bool) :
    (renderPointsGeoJSON s g lb sk).currentPolygonLayer = s.currentPolygonLayer := rfl

@[simp] theorem renderPointsGeoJSON_currentPointsLayer (s : AppState) (g : Option GeoJSON) (lb : String) (sk : Bool) :
    (renderPointsGeoJSON s g lb sk).currentPointsLayer = some (createOverlaysFromGeoJSON g { pointStyle := some "dot" }) := rfl

@[simp] theorem renderPointsGeoJSON_currentItemsLayer (s : AppState) (g : Option GeoJSON) (lb : String) (sk : Bool) :
    (renderPointsGeoJSON s g lb sk).currentItemsLayer = s.currentItemsLayer := rfl

@[simp] theorem renderPointsGeoJSON_polygonEditors (s : AppState) (g : Option GeoJSON) (lb : String) (sk : Bool) :
    (renderPointsGeoJSON s g lb sk).polygonEditors = s.polygonEditors := rfl

@[simp] theorem renderPointsGeoJSON_isPolygonEditing (s : AppState) (g : Option GeoJSON) (lb : String) (sk : Bool) :
    (renderPointsGeoJSON s g lb sk).isPolygonEditing = s.isPolygonEditing := rfl

@[simp] theorem renderPointsGeoJSON_isPointsEditing (s : AppState) (g : Option GeoJSON) (lb : String) (sk : Bool) :
    (renderPointsGeoJSON s g lb sk).isPointsEditing = s.isPointsEditing := rfl

@[simp] theorem renderPointsGeoJSON_originalPolygonGeoJSON (s : AppState) (g : Option GeoJSON) (lb : String) (sk : Bool) :
    (renderPointsGeoJSON s g lb sk).originalPolygonGeoJSON = s.originalPolygonGeoJSON := rfl

@[simp] theorem renderPointsGeoJSON_originalPointsGeoJSON (s : AppState) (g : Option GeoJSON) (lb : String) (sk : Bool) :
    (renderPointsGeoJSON s g lb sk).originalPointsGeoJSON = if sk then s.originalPointsGeoJSON else cloneGeoJSON g := rfl

@[simp] theorem renderPointsGeoJSON_originalItemsGeoJSON (s : AppState) (g : Option GeoJSON) (lb : String) (sk : Bool) :
    (renderPointsGeoJSON s g lb sk).originalItemsGeoJSON = s.originalItemsGeoJSON := rfl

@[simp] theorem renderPointsGeoJSON_currentFileName (s : AppState) (g : Option GeoJSON) (lb : String) (sk : Bool) :
    (renderPointsGeoJSON s g lb sk).currentFileName = s.currentFileName := rfl

@[simp] theorem renderPointsGeoJSON_currentFileSource (s : AppState) (g : Option GeoJSON) (lb : String) (sk : Bool) :
    (renderPointsGeoJSON s g lb sk).currentFileSource = s.currentFileSource := rfl

@[simp] theorem renderPointsGeoJSON_fileSelectValue (s : AppState) (g : Option GeoJSON) (lb : String) (sk : Bool) :
    (renderPointsGeoJSON s g lb sk).fileSelectValue = s.fileSelectValue := rfl

@[simp] theorem renderPointsGeoJSON_schoolSelectValue (s : AppState) (g : Option GeoJSON) (lb : String) (sk : Bool) :
    (renderPointsGeoJSON s g lb sk).schoolSelectValue = s.schoolSelectValue := rfl

@[simp] theorem renderPointsGeoJSON_historySelectValue (s : AppState) (g : Option GeoJSON) (lb : String) (sk : Bool) :
    (renderPointsGeoJSON s g lb sk).historySelectValue = s.historySelectValue := rfl

@[simp] theorem renderPointsGeoJSON_showPoints (s : AppState) (g : Option GeoJSON) (lb : String) (sk : Bool) :
    (renderPointsGeoJSON s g lb sk).showPoints = s.showPoints := rfl

@[simp] theorem renderPointsGeoJSON_showItems (s : AppState) (g : Option GeoJSON) (lb : String) (sk : Bool) :
    (renderPointsGeoJSON s g lb sk).showItems = s.showItems := rfl

@[simp] theorem renderPointsGeoJSON_cachePolygons (s : AppState) (g : Option GeoJSON) (lb : String) (sk : Bool) :
    (renderPointsGeoJSON s g lb sk).cachePolygons = s.cachePolygons := rfl

@[simp] theorem renderPointsGeoJSON_cachePoints (s : AppState) (g : Option GeoJSON) (lb : String) (sk : Bool) :
    (renderPointsGeoJSON s g lb sk).cachePoints = s.cachePoints := rfl

@[simp] theorem renderPointsGeoJSON_cacheItems (s : AppState) (g : Option GeoJSON) (lb : String) (sk : Bool) :
    (renderPointsGeoJSON s g lb sk).cacheItems = s.cacheItems := rfl

@[simp] theorem renderPointsGeoJSON_cacheHistoryList (s : AppState) (g : Option GeoJSON) (lb : String) (sk : Bool) :
    (renderPointsGeoJSON s g lb sk).cacheHistoryList = s.cacheHistoryList := rfl

@[simp] theorem renderPointsGeoJSON_cacheHistoryItem (s : AppState) (g : Option GeoJSON) (lb : String) (sk : Bool) :
    (renderPointsGeoJSON s g lb sk).cacheHistoryItem = s.cacheHistoryItem := rfl

@[simp] theorem renderPointsGeoJSON_cacheIndex (s : AppState) (g : Option GeoJSON) (lb : String) (sk : Bool) :
    (renderPointsGeoJSON s g lb sk).cacheIndex = s.cacheIndex := rfl

@[simp] theorem renderItemsGeoJSON_currentPolygonLayer (s : AppState) (g : Option GeoJSON) (lb : String) (sk : Bool) :
    (renderItemsGeoJSON s g lb sk).currentPolygonLayer = s.currentPolygonLayer := rfl

@[simp] theorem renderItemsGeoJSON_currentPointsLayer (s : AppState) (g : Option GeoJSON) (lb : String) (sk : Bool) :
    (renderItemsGeoJSON s g lb sk).currentPointsLayer = s.currentPointsLayer := rfl

@[simp] theorem renderItemsGeoJSON_currentItemsLayer (s : AppState) (g : Option GeoJSON) (lb : String) (sk : Bool) :
    (renderItemsGeoJSON s g lb sk).currentItemsLayer = some (createOverlaysFromGeoJSON g {}) := rfl

@[simp] theorem renderItemsGeoJSON_polygonEditors (s : AppState) (g : Option GeoJSON) (lb : String) (sk : Bool) :
    (renderItemsGeoJSON s g lb sk).polygonEditors = s.polygonEditors := rfl

@[simp] theorem renderItemsGeoJSON_isPolygonEditing (s : AppState) (g : Option GeoJSON) (lb : String) (sk : Bool) :
    (renderItemsGeoJSON s g lb sk).isPolygonEditing = s.isPolygonEditing := rfl

@[simp] theorem renderItemsGeoJSON_isPointsEditing (s : AppState) (g : Option GeoJSON) (lb : String) (sk : Bool) :
    (renderItemsGeoJSON s g lb sk).isPointsEditing = s.isPointsEditing := rfl

@[simp] theorem renderItemsGeoJSON_originalPolygonGeoJSON (s : AppState) (g : Option GeoJSON) (lb : String) (sk : Bool) :
    (renderItemsGeoJSON s g lb sk).originalPolygonGeoJSON = s.originalPolygonGeoJSON := rfl

@[simp] theorem renderItemsGeoJSON_originalPointsGeoJSON (s : AppState) (g : Option GeoJSON) (lb : String) (sk : Bool) :
    (renderItemsGeoJSON s g lb sk).originalPointsGeoJSON = s.originalPointsGeoJSON := rfl

@[simp] theorem renderItemsGeoJSON_originalItemsGeoJSON (s : AppState) (g : Option GeoJSON) (lb : String) (sk : Bool) :
    (renderItemsGeoJSON s g lb sk).originalItemsGeoJSON = if sk then s.originalItemsGeoJSON else cloneGeoJSON g := rfl

@[simp] theorem renderItemsGeoJSON_currentFileName (s : AppState) (g : Option GeoJSON) (lb : String) (sk : Bool) :
    (renderItemsGeoJSON s g lb sk).currentFileName = s.currentFileName := rfl

@[simp] theorem renderItemsGeoJSON_currentFileSource (s : AppState) (g : Option GeoJSON) (lb : String) (sk : Bool) :
    (renderItemsGeoJSON s g lb sk).currentFileSource = s.currentFileSource := rfl

@[simp] theorem renderItemsGeoJSON_fileSelectValue (s : AppState) (g : Option GeoJSON) (lb : String) (sk : Bool) :
    (renderItemsGeoJSON s g lb sk).fileSelectValue = s.fileSelectValue := rfl

@[simp] theorem renderItemsGeoJSON_schoolSelectValue (s : AppState) (g : Option GeoJSON) (lb : String) (sk : Bool) :
    (renderItemsGeoJSON s g lb sk).schoolSelectValue = s.schoolSelectValue := rfl

@[simp] theorem renderItemsGeoJSON_historySelectValue (s : AppState) (g : Option GeoJSON) (lb : String) (sk : Bool) :
    (renderItemsGeoJSON s g lb sk).historySelectValue = s.historySelectValue := rfl

@[simp] theorem renderItemsGeoJSON_showPoints (s : AppState) (g : Option GeoJSON) (lb : String) (sk : Bool) :
    (renderItemsGeoJSON s g lb sk).showPoints = s.showPoints := rfl

@[simp] theorem renderItemsGeoJSON_showItems (s : AppState) (g : Option GeoJSON) (lb : String) (sk : Bool) :
    (renderItemsGeoJSON s g lb sk).showItems = s.showItems := rfl

@[simp] theorem renderItemsGeoJSON_cachePolygons (s : AppState) (g : Option GeoJSON) (lb : String) (sk : Bool) :
    (renderItemsGeoJSON s g lb sk).cachePolygons = s.cachePolygons := rfl

@[simp] theorem renderItemsGeoJSON_cachePoints (s : AppState) (g : Option GeoJSON) (lb : String) (sk : Bool) :
    (renderItemsGeoJSON s g lb sk).cachePoints = s.cachePoints := rfl

@[simp] theorem renderItemsGeoJSON_cacheItems (s : AppState) (g : Option GeoJSON) (lb : String) (sk : Bool) :
    (renderItemsGeoJSON s g lb sk).cacheItems = s.cacheItems := rfl

@[simp] theorem renderItemsGeoJSON_cacheHistoryList (s : AppState) (g : Option GeoJSON) (lb : String) (sk : Bool) :
    (renderItemsGeoJSON s g lb sk).cacheHistoryList = s.cacheHistoryList := rfl

@[simp] theorem renderItemsGeoJSON_cacheHistoryItem (s : AppState) (g : Option GeoJSON) (lb : String) (sk : Bool) :
    (renderItemsGeoJSON s g lb sk).cacheHistoryItem = s.cacheHistoryItem := rfl

@[simp] theorem renderItemsGeoJSON_cacheIndex (s : AppState) (g : Option GeoJSON) (lb : String) (sk : Bool) :
    (renderItemsGeoJSON s g lb sk).cacheIndex = s.cacheIndex := rfl

@[simp] theorem disableAllEditing_currentPolygonLayer (s : AppState) :
    (disableAllEditing s).currentPolygonLayer = s.currentPolygonLayer := by
  by_cases h : s.isPointsEditing <;>
    simp [disableAllEditing, closePolygonEditors, h]

@[simp] theorem disableAllEditing_currentItemsLayer (s : AppState) :
    (disableAllEditing s).currentItemsLayer = s.currentItemsLayer := by
  by_cases h : s.isPointsEditing <;>
    simp [disableAllEditing, closePolygonEditors, h]

@[simp] theorem disableAllEditing_originalPolygonGeoJSON (s : AppState) :
    (disableAllEditing s).originalPolygonGeoJSON = s.originalPolygonGeoJSON := by
  by_cases h : s.isPointsEditing <;>
    simp [disableAllEditing, closePolygonEditors, h]

@[simp] theorem disableAllEditing_originalPointsGeoJSON (s : AppState) :
    (disableAllEditing s).originalPointsGeoJSON = s.originalPointsGeoJSON := by
  by_cases h : s.isPointsEditing <;>
    simp [disableAllEditing, closePolygonEditors, h]

@[simp] theorem disableAllEditing_originalItemsGeoJSON (s : AppState) :
    (disableAllEditing s).originalItemsGeoJSON = s.originalItemsGeoJSON := by
  by_cases h : s.isPointsEditing <;>
    simp [disableAllEditing, closePolygonEditors, h]

@[simp] theorem disableAllEditing_currentFileName (s : AppState) :
    (disableAllEditing s).currentFileName = s.currentFileName := by
  by_cases h : s.isPointsEditing <;>
    simp [disableAllEditing, closePolygonEditors, h]

@[simp] theorem disableAllEditing_currentFileSource (s : AppState) :
    (disableAllEditing s).currentFileSource = s.currentFileSource := by
  by_cases h : s.isPointsEditing <;>
    simp [disableAllEditing, closePolygonEditors, h]

@[simp] theorem disableAllEditing_fileSelectValue (s : AppState) :
    (disableAllEditing s).fileSelectValue = s.fileSelectValue := by
  by_cases h : s.isPointsEditing <;>
    simp [disableAllEditing, closePolygonEditors, h]

@[simp] theorem disableAllEditing_schoolSelectValue (s : AppState) :
    (disableAllEditing s).schoolSelectValue = s.schoolSelectValue := by
  by_cases h : s.isPointsEditing <;>
    simp [disableAllEditing, closePolygonEditors, h]

@[simp] theorem disableAllEditing_historySelectValue (s : AppState) :
    (disableAllEditing s).historySelectValue = s.historySelectValue := by
  by_cases h : s.isPointsEditing <;>
    simp [disableAllEditing, closePolygonEditors, h]

@[simp] theorem disableAllEditing_showPoints (s : AppState) :
    (disableAllEditing s).showPoints = s.showPoints := by
  by_cases h : s.isPointsEditing <;>
    simp [disableAllEditing, closePolygonEditors, h]

@[simp] theorem disableAllEditing_showItems (s : AppState) :
    (disableAllEditing s).showItems = s.showItems := by
  by_cases h : s.isPointsEditing <;>
    simp [disableAllEditing, closePolygonEditors, h]

@[simp] theorem disableAllEditing_cachePolygons (s : AppState) :
    (disableAllEditing s).cachePolygons = s.cachePolygons := by
  by_cases h : s.isPointsEditing <;>
    simp [disableAllEditing, closePolygonEditors, h]

@[simp] theorem disableAllEditing_cachePoints (s : AppState) :
    (disableAllEditing s).cachePoints = s.cachePoints := by
  by_cases h : s.isPointsEditing <;>
    simp [disableAllEditing, closePolygonEditors, h]

@[simp] theorem disableAllEditing_cacheItems (s : AppState) :
    (disableAllEditing s).cacheItems = s.cacheItems := by
  by_cases h : s.isPointsEditing <;>
    simp [disableAllEditing, closePolygonEditors, h]

@[simp] theorem disableAllEditing_cacheHistoryList (s : AppState) :
    (disableAllEditing s).cacheHistoryList = s.cacheHistoryList := by
  by_cases h : s.isPointsEditing <;>
    simp [disableAllEditing, closePolygonEditors, h]

@[simp] theorem disableAllEditing_cacheHistoryItem (s : AppState) :
    (disableAllEditing s).cacheHistoryItem = s.cacheHistoryItem := by
  by_cases h : s.isPointsEditing <;>
    simp [disableAllEditing, closePolygonEditors, h]

@[simp] theorem disableAllEditing_cacheIndex (s : AppState) :
    (disableAllEditing s).cacheIndex = s.cacheIndex := by
  by_cases h : s.isPointsEditing <;>
    simp [disableAllEditing, closePolygonEditors, h]

@[simp] theorem disableAllEditing_polygonEditors (s : AppState) :
    (disableAllEditing s).polygonEditors = 0 := by
  by_cases h : s.isPointsEditing <;>
    simp [disableAllEditing, closePolygonEditors, h]

@[simp] theorem disableAllEditing_isPolygonEditing (s : AppState) :
    (disableAllEditing s).isPolygonEditing = false := by
  by_cases h : s.isPointsEditing <;>
    simp [disableAllEditing, closePolygonEditors, h]

@[simp] theorem disableAllEditing_isPointsEditing (s : AppState) :
    (disableAllEditing s).isPointsEditing = false := by
  by_cases h : s.isPointsEditing <;>
    simp [disableAllEditing, closePolygonEditors, h]

@[simp] theorem disableAllEditing_currentPointsLayer (s : AppState) :
    (disableAllEditing s).currentPointsLayer
      = (if s.isPointsEditing then setMarkersDraggable s.currentPointsLayer false
         else s.currentPointsLayer) := by
  by_cases h : s.isPointsEditing <;>
    simp [disableAllEditing, closePolygonEditors, h]

@[simp] theorem disableAllEditing_status (s : AppState) :
    (disableAllEditing s).status = s.status := by
  by_cases h : s.isPointsEditing <;>
    simp [disableAllEditing, closePolygonEditors, h]

/-! ### Basic cache lemmas -/

theorem mapGet_mapSet_self (m : CacheMap α) (k : String) (e : CacheEntry α) :
    mapGet (mapSet m k e) k = some e := by
  induction m with
  | nil => simp [mapSet, mapGet]
  | cons p rest ih =>
    by_cases h : p.1 = k
    · simp [mapSet, mapGet, h]
    · simpa [mapSet, mapGet, h] using ih

theorem mapGet_mapSet_ne (m : CacheMap α) (k k' : String) (e : CacheEntry α)
    (h : k' ≠ k) : mapGet (mapSet m k e) k' = mapGet m k' := by
  induction m with
  | nil => simp [mapSet, mapGet, Ne.symm h]
  | cons p rest ih =>
    by_cases hp : p.1 = k
    · simp [mapSet, mapGet, hp, Ne.symm h]
    · by_cases hp' : p.1 = k'
      · simp [mapSet, mapGet, hp, hp', h, Ne.symm h]
      · simpa [mapSet, mapGet, hp, hp'] using ih

theorem mapGet_mapDelete_ne (m : CacheMap α) (k k' : String) (h : k' ≠ k) :
    mapGet (mapDelete m k) k' = mapGet m k' := by
  induction m with
  | nil => simp [mapDelete, mapGet]
  | cons p rest ih =>
    by_cases hp : p.1 = k
    · have hp' : p.1 ≠ k' := by rw [hp]; exact Ne.symm h
      simpa [mapDelete, mapGet, hp, hp', h, Ne.symm h] using ih
    · by_cases hp' : p.1 = k'
      · simp [mapDelete, mapGet, hp, hp', h, Ne.symm h]
      · simpa [mapDelete, mapGet, hp, hp'] using ih

/-- C4: a cache read after a write within the TTL returns the stored value,
a read of an entry strictly older than the TTL returns absent, and a forced
`fetchJsonWithCache` always issues the network read and, on success,
overwrites the cache entry with the fresh data regardless of the age of any
existing entry. -/
theorem cache_ttl_and_force_semantics :
    ∀ (α : Type) (m : CacheMap α) (key url : String) (v d : α) (t now : Int)
      (net : NetResult α),
      (now - t ≤ CACHE_TTL_MS →
        (cacheGet (cacheSet (some m) key v t) key now).1 = some v)
      ∧ (now - t > CACHE_TTL_MS →
        (cacheGet (cacheSet (some m) key v t) key now).1 = none)
      ∧ (fetchJsonWithCache url m key true net now).requests = [.get url]
      ∧ (net = .ok d →
          (fetchJsonWithCache url m key true net now).cache = mapSet m key ⟨now, d⟩
          ∧ (fetchJsonWithCache url m key true net now).result = .ok d) := by
  intro α m key url v d t now net
  refine ⟨?_, ?_, ?_, ?_⟩
  · intro h
    simp [cacheSet, cacheGet, mapGet_mapSet_self, not_lt.mpr h]
  · intro h
    simp [cacheSet, cacheGet, mapGet_mapSet_self, h]
  · cases net <;> simp [fetchJsonWithCache]
  · rintro rfl
    simp [fetchJsonWithCache, cset, cacheSet]

theorem cache_ttl_and_force_semantics_witness :
    (cacheGet (cacheSet (some ([] : CacheMap Nat)) "k" 7 0) "k" 300000).1 = some 7
    ∧ (cacheGet (cacheSet (some ([] : CacheMap Nat)) "k" 7 0) "k" 300001).1 = none
    ∧ (fetchJsonWithCache "/u" ([] : CacheMap Nat) "k" true (.ok 9) 5).cache
        = mapSet [] "k" ⟨5, 9⟩ :=
  ⟨(cache_ttl_and_force_semantics Nat [] "k" "/u" 7 9 0 300000 (.ok 9)).1 (by decide),
   (cache_ttl_and_force_semantics Nat [] "k" "/u" 7 9 0 300001 (.ok 9)).2.1 (by decide),
   ((cache_ttl_and_force_semantics Nat [] "k" "/u" 7 9 0 5 (.ok 9)).2.2.2 rfl).1⟩

/-- C10: `cacheGet` is a mutating read: an expired entry is deleted from the
map before returning absent; a fresh hit and a miss both leave the map
unchanged; and entries under keys other than the requested one are never
modified by a get. -/
theorem cacheGet_mutating_read :
    ∀ (α : Type) (m : CacheMap α) (key : String) (now : Int),
      (∀ entry, mapGet m key = some entry → now - entry.ts > CACHE_TTL_MS →
        cacheGet (some m) key now = (none, some (mapDelete m key)))
      ∧ (∀ entry, mapGet m key = some entry → now - entry.ts ≤ CACHE_TTL_MS →
        cacheGet (some m) key now = (some entry.data, some m))
      ∧ (mapGet m key = none → cacheGet (some m) key now = (none, some m))
      ∧ (∃ m', (cacheGet (some m) key now).2 = some m'
          ∧ ∀ k', k' ≠ key → mapGet m' k' = mapGet m k') := by
  intro α m key now
  refine ⟨?_, ?_, ?_, ?_⟩
  · intro entry h hexp
    simp [cacheGet, h, hexp]
  · intro entry h hfresh
    simp [cacheGet, h, not_lt.mpr hfresh]
  · intro h
    simp [cacheGet, h]
  · rcases hm : mapGet m key with _ | entry
    · exact ⟨m, by simp [cacheGet, hm], fun _ _ => rfl⟩
    · by_cases hexp : now - entry.ts > CACHE_TTL_MS
      · exact ⟨mapDelete m key, by simp [cacheGet, hm, hexp],
          fun k' hk' => mapGet_mapDelete_ne m key k' hk'⟩
      · exact ⟨m, by simp [cacheGet, hm, hexp], fun _ _ => rfl⟩

theorem cacheGet_mutating_read_witness :
    cacheGet (some [("k", (⟨0, 3⟩ : CacheEntry Nat))]) "k" 300001
      = (none, some (mapDelete [("k", ⟨0, 3⟩)] "k"))
    ∧ cacheGet (some [("k", (⟨0, 3⟩ : CacheEntry Nat))]) "k" 300000
      = (some 3, some [("k", ⟨0, 3⟩)])
    ∧ cacheGet (some ([] : CacheMap Nat)) "k" 0 = (none, some []) :=
  ⟨(cacheGet_mutating_read Nat [("k", ⟨0, 3⟩)] "k" 300001).1 ⟨0, 3⟩ (by decide) (by decide),
   (cacheGet_mutating_read Nat [("k", ⟨0, 3⟩)] "k" 300000).2.1 ⟨0, 3⟩ (by decide) (by decide),
   (cacheGet_mutating_read Nat [] "k" 0).2.2.1 (by decide)⟩

/-! ### Filter and overlay read-back properties -/

/-- C7: `filterGeoJSONBySchool` returns the input itself when the school name
is empty, when the input is null, or when the input is not a
FeatureCollection; otherwise it returns a new FeatureCollection holding
exactly the input features whose `properties.school_name` equals the
requested name, in input order; it is a total pure function, and applying it
twice with the same name equals applying it once. -/
theorem filterBySchool_spec :
    ∀ (g : GeoJSON) (name : String) (fs : List Feature),
      filterGeoJSONBySchool none name = none
      ∧ filterGeoJSONBySchool (some g) "" = some g
      ∧ ((∀ fs0, g ≠ .featureCollection fs0) →
          filterGeoJSONBySchool (some g) name = some g)
      ∧ (name ≠ "" →
          filterGeoJSONBySchool (some (.featureCollection fs)) name
            = some (.featureCollection (fs.filter (fun f =>
                propsLookup (f.properties.getD []) "school_name" == some name))))
      ∧ filterGeoJSONBySchool (filterGeoJSONBySchool (some g) name) name
          = filterGeoJSONBySchool (some g) name := by
  intro g name fs
  refine ⟨rfl, by simp [filterGeoJSONBySchool], ?_, ?_, ?_⟩
  · intro h
    cases g with
    | featureCollection fs0 => exact absurd rfl (h fs0)
    | feature f => simp [filterGeoJSONBySchool]
    | geometryVal gv => simp [filterGeoJSONBySchool]
  · intro h
    simp [filterGeoJSONBySchool, h]
  · by_cases hn : name = ""
    · simp [filterGeoJSONBySchool, hn]
    · cases g with
      | featureCollection fs0 =>
        simp only [filterGeoJSONBySchool, hn, if_neg hn]
        simp [List.filter_filter]
      | feature f => simp [filterGeoJSONBySchool, hn]
      | geometryVal gv => simp [filterGeoJSONBySchool, hn]

theorem filterBySchool_spec_witness :
    filterGeoJSONBySchool (some (.feature ⟨none, none⟩)) "X"
      = some (.feature ⟨none, none⟩)
    ∧ filterGeoJSONBySchool
        (some (.featureCollection [⟨none, some [("school_name", "X")]⟩, ⟨none, none⟩])) "X"
      = some (.featureCollection [⟨none, some [("school_name", "X")]⟩]) := by
  constructor
  · exact (filterBySchool_spec (.feature ⟨none, none⟩) "X" []).2.2.1
      (fun fs0 => by simp)
  · have h := (filterBySchool_spec (.feature ⟨none, none⟩) "X"
      [⟨none, some [("school_name", "X")]⟩, ⟨none, none⟩]).2.2.2.1 (by decide)
    rw [h]
    decide

/-- C9: `overlaysToGeoJSON` is total specificly returning a FeatureCollection
whose every feature has the requested geometry type; an overlay whose class
does not match the requested type contributes nothing; a null overlay list
yields an empty FeatureCollection; and the overlays created from one
MultiPolygon feature read back as one separate Polygon feature per polygon
element (not as the original MultiPolygon). -/
theorem overlaysToGeoJSON_shape :
    ∀ (ovs : List Overlay) (gt : String) (o : Overlay)
      (polys : List (List GeoRing)) (props : Props) (opts : OverlayOptions),
      overlaysToGeoJSON none gt = .featureCollection []
      ∧ overlaysToGeoJSON (some ovs) gt
          = .featureCollection (ovs.filterMap (overlayToFeature gt))
      ∧ (∀ f, f ∈ ovs.filterMap (overlayToFeature gt) →
          ∃ geo, f.geometry = some geo ∧ geo.typeName = gt)
      ∧ (overlayToFeature gt o = none →
          overlaysToGeoJSON (some (o :: ovs)) gt = overlaysToGeoJSON (some ovs) gt)
      ∧ overlaysToGeoJSON
          (some (createOverlaysFromFeature
            ⟨some (.multiPolygon polys), some props⟩ opts)) "Polygon"
          = .featureCollection (polys.map (fun poly =>
              ⟨some (.polygon (polygonPathToCoordinates poly)), some props⟩)) := by
  intro ovs gt o polys props opts
  refine ⟨rfl, rfl, ?_, ?_, ?_⟩
  · intro f hf
    rcases List.mem_filterMap.mp hf with ⟨o', _, ho'⟩
    cases o' with
    | marker pos p d =>
      by_cases h : gt = "Point"
      · simp only [overlayToFeature, if_pos h] at ho'
        obtain rfl := Option.some.inj ho'
        exact ⟨.point ⟨pos.lng, pos.lat⟩, rfl, by simp [Geometry.typeName, h]⟩
      · simp [overlayToFeature, h] at ho'
    | polygon path p =>
      by_cases h : gt = "Polygon"
      · simp only [overlayToFeature, if_pos h] at ho'
        obtain rfl := Option.some.inj ho'
        exact ⟨.polygon (polygonPathToCoordinates path), rfl,
          by simp [Geometry.typeName, h]⟩
      · simp [overlayToFeature, h] at ho'
    | polyline path p =>
      by_cases h : gt = "LineString"
      · simp only [overlayToFeature, if_pos h] at ho'
        obtain rfl := Option.some.inj ho'
        exact ⟨.lineString (toLngLatArray path), rfl,
          by simp [Geometry.typeName, h]⟩
      · simp [overlayToFeature, h] at ho'
  · intro h
    simp [overlaysToGeoJSON, h]
  · have hlist : ∀ (ps : List (List GeoRing)),
        List.filterMap (overlayToFeature "Polygon")
            (ps.map (fun poly => Overlay.polygon poly props))
          = ps.map (fun poly =>
              (⟨some (.polygon (polygonPathToCoordinates poly)), some props⟩ : Feature)) := by
      intro ps
      induction ps with
      | nil => rfl
      | cons a t ih => simp [overlayToFeature, ih]
    simp only [createOverlaysFromFeature, overlaysToGeoJSON, Option.getD_some]
    rw [hlist polys]

theorem overlaysToGeoJSON_shape_witness :
    (∃ geo, Feature.geometry ⟨some (.point ⟨1, 2⟩), some []⟩ = some geo
      ∧ geo.typeName = "Point")
    ∧ overlaysToGeoJSON (some [.polygon [] [], .marker ⟨1, 2⟩ [] false]) "Point"
        = overlaysToGeoJSON (some [.marker ⟨1, 2⟩ [] false]) "Point" := by
  constructor
  · exact (overlaysToGeoJSON_shape [.marker ⟨1, 2⟩ [] false] "Point"
      (.polygon [] []) [] [] {}).2.2.1 ⟨some (.point ⟨1, 2⟩), some []⟩ (by decide)
  · exact (overlaysToGeoJSON_shape [.marker ⟨1, 2⟩ [] false] "Point"
      (.polygon [] []) [] [] {}).2.2.2.1 (by decide)

set_option maxRecDepth 4000 in
/-- Classification of the `includes(404)` substring test over the whole HTTP
status range: the thrown message contains the digits 404 exactly for status
404. -/
theorem includes404_errMsg_iff :
    ∀ n : Fin 600, includes404 (errMsg n.val) = decide (n.val = 404) := by
  decide

/-- C8: a 404 when fetching the points or items layer is not an error: the
loader returns normally, leaves the layer and its snapshot untouched (hence
still empty in the load flows, which clear the layer beforehand), and shows
the informative status; any other non-success status yields the load-failure
status message instead. -/
theorem notFound404_absence :
    ∀ (net : Net) (now : Int) (file : String) (s : AppState) (n : Nat),
      (mapGet s.cachePoints file = none → net.points file = .httpError 404 →
        (loadPointsForFile net now file s).1.currentPointsLayer = s.currentPointsLayer
        ∧ (loadPointsForFile net now file s).1.originalPointsGeoJSON
            = s.originalPointsGeoJSON
        ∧ (loadPointsForFile net now file s).1.status
            = "点集文件不存在（请先生成 points 文件）")
      ∧ (mapGet s.cachePoints file = none → net.points file = .httpError n →
          n < 600 → n ≠ 404 →
          (loadPointsForFile net now file s).1.status = "点集加载失败: " ++ errMsg n
          ∧ (loadPointsForFile net now file s).1.currentPointsLayer
              = s.currentPointsLayer
          ∧ (loadPointsForFile net now file s).1.originalPointsGeoJSON
              = s.originalPointsGeoJSON)
      ∧ (mapGet s.cacheItems file = none → net.items file = .httpError 404 →
          (loadItemsForFile net now file s).1.currentItemsLayer = s.currentItemsLayer
          ∧ (loadItemsForFile net now file s).1.originalItemsGeoJSON
              = s.originalItemsGeoJSON
          ∧ (loadItemsForFile net now file s).1.status
              = "细分面文件不存在（请先生成 items 文件）")
      ∧ (mapGet s.cacheItems file = none → net.items file = .httpError n →
          n < 600 → n ≠ 404 →
          (loadItemsForFile net now file s).1.status = "细分面加载失败: " ++ errMsg n
          ∧ (loadItemsForFile net now file s).1.currentItemsLayer
              = s.currentItemsLayer) := by
  intro net now file s n
  have h404 : includes404 (errMsg 404) = true := by decide
  have hother : ∀ m : Nat, m < 600 → m ≠ 404 → includes404 (errMsg m) = false := by
    intro m hm hne
    have := includes404_errMsg_iff ⟨m, hm⟩
    simpa [hne] using this
  refine ⟨?_, ?_, ?_, ?_⟩
  · intro hc hn
    simp [loadPointsForFile, fetchJsonWithCache, cacheGet, hc, hn, h404]
  · intro hc hn hlt hne
    simp [loadPointsForFile, fetchJsonWithCache, cacheGet, hc, hn, hother n hlt hne]
  · intro hc hn
    simp [loadItemsForFile, fetchJsonWithCache, cacheGet, hc, hn, h404]
  · intro hc hn hlt hne
    simp [loadItemsForFile, fetchJsonWithCache, cacheGet, hc, hn, hother n hlt hne]

/-- Network oracle used by the concrete witness states. -/
def witNet : Net where
  polygons := fun _ => .httpError 500
  points := fun _ => .httpError 404
  items := fun _ => .httpError 500
  history := fun _ => .ok []
  historyItem := fun _ => .httpError 404
  index := .ok []
  save := fun _ => .ok ()
  saveAll := .ok []

theorem notFound404_absence_witness :
    (loadPointsForFile witNet 0 "A" initState).1.status
      = "点集文件不存在（请先生成 points 文件）"
    ∧ (loadItemsForFile witNet 0 "A" initState).1.status
      = "细分面加载失败: " ++ errMsg 500 :=
  ⟨((notFound404_absence witNet 0 "A" initState 500).1 (by decide) (by decide)).2.2,
   ((notFound404_absence witNet 0 "A" initState 500).2.2.2 (by decide) (by decide)
     (by decide) (by decide)).1⟩

/-- C5: a polygon or points save clicked while the file context is not
server-sourced or while a school filter is active is rejected before any
network call: the handler issues no HTTP request and sets one of the
explanatory guard status messages. -/
theorem save_guard_no_network :
    ∀ (net : Net) (now : Int) (s : AppState),
      (s.currentFileSource ≠ "server" ∨ isSchoolFilterActive s = true) →
      (step net now s .savePolygonClick).2 = []
      ∧ ((step net now s .savePolygonClick).1.status = "请先切换到全部校区再保存"
         ∨ (step net now s .savePolygonClick).1.status = "未加载面数据，无法保存"
         ∨ (step net now s .savePolygonClick).1.status = "本地文件仅预览，无法保存到服务器")
      ∧ (step net now s .savePointsClick).2 = []
      ∧ ((step net now s .savePointsClick).1.status = "请先切换到全部校区再保存"
         ∨ (step net now s .savePointsClick).1.status = "未加载点集，无法保存"
         ∨ (step net now s .savePointsClick).1.status = "本地文件仅预览，无法保存到服务器") := by
  intro net now s h
  by_cases hf : isSchoolFilterActive s
  · refine ⟨?_, Or.inl ?_, ?_, Or.inl ?_⟩ <;>
      simp [step, savePolygonClickHandler, savePointsClickHandler, hf]
  · have hsrc : s.currentFileSource ≠ "server" := by
      rcases h with h | h
      · exact h
      · exact absurd h hf
    have hb : (s.currentFileSource != "server") = true := by
      simpa [bne_iff_ne] using hsrc
    constructor
    · by_cases hl : layerHasOverlays s.currentPolygonLayer <;>
        simp [step, savePolygonClickHandler, saveGeoJSON, hf, hl, hb]
    constructor
    · by_cases hl : layerHasOverlays s.currentPolygonLayer
      · refine Or.inr (Or.inr ?_)
        simp [step, savePolygonClickHandler, saveGeoJSON, hf, hl, hb]
      · refine Or.inr (Or.inl ?_)
        simp [step, savePolygonClickHandler, saveGeoJSON, hf, hl, hb]
    constructor
    · by_cases hl : layerHasOverlays s.currentPointsLayer <;>
        simp [step, savePointsClickHandler, saveGeoJSON, hf, hl, hb]
    · by_cases hl : layerHasOverlays s.currentPointsLayer
      · refine Or.inr (Or.inr ?_)
        simp [step, savePointsClickHandler, saveGeoJSON, hf, hl, hb]
      · refine Or.inr (Or.inl ?_)
        simp [step, savePointsClickHandler, saveGeoJSON, hf, hl, hb]

theorem save_guard_no_network_witness :
    (step witNet 0 { initState with currentFileSource := "local" } .savePointsClick).2
      = [] :=
  (save_guard_no_network witNet 0 { initState with currentFileSource := "local" }
    (Or.inl (by decide))).2.2.1

/-! ### History promotion (C2) -/

set_option maxHeartbeats 1000000 in
theorem applyHistoryData_eq (s : AppState) (data : HistorySnapshot)
    (asCurrent : Bool) :
    ∃ pl pts ol ops st,
      applyHistoryData s data asCurrent =
        { s with
          currentPolygonLayer := pl,
          currentPointsLayer := pts,
          currentItemsLayer := none,
          originalPolygonGeoJSON := ol,
          originalPointsGeoJSON := ops,
          currentFileName :=
            if data.file_name != "" then some data.file_name else s.currentFileName,
          currentFileSource := if asCurrent then "server" else "history",
          schoolSelectValue := data.school_name,
          historySelectValue := if asCurrent then "" else s.historySelectValue,
          status := st } := by
  simp only [applyHistoryData]
  repeat' split
  all_goals exact ⟨_, _, _, _, _, rfl⟩

/-- C2 (amended): promoting a history snapshot with `restoreHistoryAsCurrent`
sets the file source to server and clears the items layer, but it does not
invalidate the history-list cache: the subsequent list reload runs with
`force = false`, so when a fresh cache entry exists for the promoted file it
is served from the cache, the cache map is left unchanged, and the only
network request of the handler is the history-item read itself. -/
theorem restore_history_behavior :
    ∀ (net : Net) (now : Int) (s : AppState) (data : HistorySnapshot)
      (entry : CacheEntry (List HistoryVersion)),
      s.historySelectValue ≠ "" →
      net.historyItem s.historySelectValue = .ok data →
      data.file_name ≠ "" →
      data.school_name = "" →
      mapGet s.cacheHistoryList (historyQuery data.file_name "") = some entry →
      now - entry.ts ≤ CACHE_TTL_MS →
      (step net now s .restoreHistoryClick).1.currentFileSource = "server"
      ∧ (step net now s .restoreHistoryClick).1.currentItemsLayer = none
      ∧ (step net now s .restoreHistoryClick).1.cacheHistoryList = s.cacheHistoryList
      ∧ (step net now s .restoreHistoryClick).2
          = [.get ("/api/history/" ++ s.historySelectValue)] := by
  intro net now s data entry hsel hnet hfn hschool hcache hfresh
  obtain ⟨pl, pts, ol, ops, st, heq⟩ :=
    applyHistoryData_eq { s with status := "正在恢复历史版本..." } data true
  have hfnb : (data.file_name != "") = true := by simpa [bne_iff_ne] using hfn
  have hcache' :
      mapGet s.cacheHistoryList ("file_name=" ++ data.file_name) = some entry := by
    simpa [historyQuery] using hcache
  simp only [step, restoreHistoryAsCurrent, if_neg hsel, hnet, heq, hschool,
    loadHistoryList, getSelectedSchool, fetchJsonWithCache, cacheGet, hfnb]
  simp [hcache', not_lt.mpr hfresh, historyQuery]

/-- Polygon collection fixture served by the concrete network oracle. -/
def fcA : GeoJSON :=
  .featureCollection [⟨some (.polygon [[⟨0, 0⟩, ⟨1, 0⟩, ⟨1, 1⟩]]),
    some [("school_name", "X")]⟩]

/-- Points collection fixture. -/
def fcP : GeoJSON := .featureCollection [⟨some (.point ⟨5, 6⟩), some []⟩]

/-- History snapshot fixture for file `A` with no school scope. -/
def snapA : HistorySnapshot := ⟨"A", "", some fcA, none⟩

/-- Concrete network oracle for the counterexample traces. -/
def cxNet : Net where
  polygons := fun _ => .ok fcA
  points := fun _ => .ok fcP
  items := fun _ => .httpError 404
  history := fun _ => .ok [⟨"id1", some "2024-01-01"⟩]
  historyItem := fun _ => .ok snapA
  index := .ok ["A"]
  save := fun _ => .ok ()
  saveAll := .ok []

/-- State reached from the initial page state by selecting server file `A`
(which caches its history list at time 0) and then viewing history version
`id1`. -/
def c2Before : AppState :=
  (runEvents cxNet [(0, .selectFile "A"), (1000, .selectHistory "id1")] initState).1

/-- C2 counterexample: promoting `id1` to current from `c2Before` sets the
source to server and clears the items layer, but the history-list cache
entry for file `A` is still the stale one cached at time 0 (it was not
invalidated), and the handler's only request is the history-item read — the
history-list reload issued no network request. -/
theorem restore_history_counterexample :
    (step cxNet 2000 c2Before .restoreHistoryClick).1.currentFileSource = "server"
    ∧ (step cxNet 2000 c2Before .restoreHistoryClick).1.currentItemsLayer = none
    ∧ (step cxNet 2000 c2Before .restoreHistoryClick).2 = [.get "/api/history/id1"]
    ∧ mapGet (step cxNet 2000 c2Before .restoreHistoryClick).1.cacheHistoryList
        "file_name=A" = some ⟨0, [⟨"id1", some "2024-01-01"⟩]⟩ := by
  decide

theorem restore_history_behavior_witness :
    (step cxNet 2000 c2Before .restoreHistoryClick).1.currentFileSource = "server"
    ∧ (step cxNet 2000 c2Before .restoreHistoryClick).1.cacheHistoryList
        = c2Before.cacheHistoryList :=
  have h := restore_history_behavior cxNet 2000 c2Before snapA
    ⟨0, [⟨"id1", some "2024-01-01"⟩]⟩
    (by decide) (by decide) (by decide) (by decide) (by decide) (by decide)
  ⟨h.1, h.2.2.1⟩

/-! ### Reset semantics (C6) -/

theorem toLngLatArray_id (r : GeoRing) : toLngLatArray r = r := by
  have h : (fun p : LngLat => (⟨p.lng, p.lat⟩ : LngLat)) = id := rfl
  rw [toLngLatArray, h, List.map_id]

theorem polygonPathToCoordinates_id (path : List GeoRing) :
    polygonPathToCoordinates path = path := by
  have hfun : toLngLatArray = id := funext toLngLatArray_id
  cases path with
  | nil => rfl
  | cons a t => simp [polygonPathToCoordinates, hfun]

/-- Reading the rendered overlays of a FeatureCollection made of single
Polygon features (with non-null properties) back through `overlaysToGeoJSON`
reproduces the collection feature for feature. -/
theorem overlays_roundtrip_polygon (fs : List Feature) (opts : OverlayOptions)
    (h : ∀ f ∈ fs, (∃ rs, f.geometry = some (.polygon rs))
        ∧ ∃ ps, f.properties = some ps) :
    overlaysToGeoJSON
        (some (createOverlaysFromGeoJSON (some (.featureCollection fs)) opts))
        "Polygon"
      = .featureCollection fs := by
  induction fs with
  | nil => rfl
  | cons f t ih =>
    obtain ⟨⟨rs, hg⟩, ps, hp⟩ := h f (by simp)
    have ht := ih (fun f' hf' => h f' (by simp [hf']))
    cases f with
    | mk fg fp =>
      simp only at hg hp
      subst hg hp
      have hhead : List.filterMap (overlayToFeature "Polygon")
          (createOverlaysFromFeature ⟨some (.polygon rs), some ps⟩ opts)
          = [⟨some (.polygon rs), some ps⟩] := by
        simp [createOverlaysFromFeature, overlayToFeature, polygonPathToCoordinates_id]
      simp only [createOverlaysFromGeoJSON, overlaysToGeoJSON,
        GeoJSON.featureCollection.injEq, List.flatMap_cons,
        List.filterMap_append] at ht ⊢
      rw [hhead, ht]
      simp

/-- The loader `loadPointsForFile` only ever modifies the points cache, the status line,
the points snapshot and the points layer. -/
theorem loadPointsForFile_eq (net : Net) (now : Int) (file : String) (s : AppState) :
    ∃ c st o l, (loadPointsForFile net now file s).1
      = { s with cachePoints := c, status := st,
                 originalPointsGeoJSON := o, currentPointsLayer := l } := by
  simp only [loadPointsForFile]
  repeat' split
  all_goals exact ⟨_, _, _, _, rfl⟩

/-- The loader `loadItemsForFile` only ever modifies the items cache, the status line,
the items snapshot and the items layer. -/
theorem loadItemsForFile_eq (net : Net) (now : Int) (file : String) (s : AppState) :
    ∃ c st o l, (loadItemsForFile net now file s).1
      = { s with cacheItems := c, status := st,
                 originalItemsGeoJSON := o, currentItemsLayer := l } := by
  simp only [loadItemsForFile]
  repeat' split
  all_goals exact ⟨_, _, _, _, rfl⟩

/-- The loader `loadHistoryList` only ever modifies the history-list cache and the
status line. -/
theorem loadHistoryList_eq (net : Net) (now : Int) (force : Bool) (s : AppState) :
    ∃ c st, (loadHistoryList net now force s).1
      = { s with cacheHistoryList := c, status := st } := by
  simp only [loadHistoryList]
  repeat' split
  all_goals exact ⟨_, _, rfl⟩

/-- The loader `loadIndex` only ever modifies the index cache and the status line. -/
theorem loadIndex_eq (net : Net) (now : Int) (force : Bool) (s : AppState) :
    ∃ c st, (loadIndex net now force s).1
      = { s with cacheIndex := c, status := st } := by
  simp only [loadIndex]
  repeat' split
  all_goals exact ⟨_, _, rfl⟩


/-! ### Preserved-field projections of the cache-backed loaders. -/

@[simp] theorem loadPointsForFile_currentPolygonLayer (net : Net) (now : Int) (file : String) (s : AppState) :
    (loadPointsForFile net now file s).1.currentPolygonLayer = s.currentPolygonLayer := by
  obtain ⟨_, _, _, _, h⟩ := loadPointsForFile_eq net now file s
  simp [h]

@[simp] theorem loadPointsForFile_currentItemsLayer (net : Net) (now : Int) (file : String) (s : AppState) :
    (loadPointsForFile net now file s).1.currentItemsLayer = s.currentItemsLayer := by
  obtain ⟨_, _, _, _, h⟩ := loadPointsForFile_eq net now file s
  simp [h]

@[simp] theorem loadPointsForFile_polygonEditors (net : Net) (now : Int) (file : String) (s : AppState) :
    (loadPointsForFile net now file s).1.polygonEditors = s.polygonEditors := by
  obtain ⟨_, _, _, _, h⟩ := loadPointsForFile_eq net now file s
  simp [h]

@[simp] theorem loadPointsForFile_isPolygonEditing (net : Net) (now : Int) (file : String) (s : AppState) :
    (loadPointsForFile net now file s).1.isPolygonEditing = s.isPolygonEditing := by
  obtain ⟨_, _, _, _, h⟩ := loadPointsForFile_eq net now file s
  simp [h]

@[simp] theorem loadPointsForFile_isPointsEditing (net : Net) (now : Int) (file : String) (s : AppState) :
    (loadPointsForFile net now file s).1.isPointsEditing = s.isPointsEditing := by
  obtain ⟨_, _, _, _, h⟩ := loadPointsForFile_eq net now file s
  simp [h]

@[simp] theorem loadPointsForFile_originalPolygonGeoJSON (net : Net) (now : Int) (file : String) (s : AppState) :
    (loadPointsForFile net now file s).1.originalPolygonGeoJSON = s.originalPolygonGeoJSON := by
  obtain ⟨_, _, _, _, h⟩ := loadPointsForFile_eq net now file s
  simp [h]

@[simp] theorem loadPointsForFile_originalItemsGeoJSON (net : Net) (now : Int) (file : String) (s : AppState) :
    (loadPointsForFile net now file s).1.originalItemsGeoJSON = s.originalItemsGeoJSON := by
  obtain ⟨_, _, _, _, h⟩ := loadPointsForFile_eq net now file s
  simp [h]

@[simp] theorem loadPointsForFile_currentFileName (net : Net) (now : Int) (file : String) (s : AppState) :
    (loadPointsForFile net now file s).1.currentFileName = s.currentFileName := by
  obtain ⟨_, _, _, _, h⟩ := loadPointsForFile_eq net now file s
  simp [h]

@[simp] theorem loadPointsForFile_currentFileSource (net : Net) (now : Int) (file : String) (s : AppState) :
    (loadPointsForFile net now file s).1.currentFileSource = s.currentFileSource := by
  obtain ⟨_, _, _, _, h⟩ := loadPointsForFile_eq net now file s
  simp [h]

@[simp] theorem loadPointsForFile_fileSelectValue (net : Net) (now : Int) (file : String) (s : AppState) :
    (loadPointsForFile net now file s).1.fileSelectValue = s.fileSelectValue := by
  obtain ⟨_, _, _, _, h⟩ := loadPointsForFile_eq net now file s
  simp [h]

@[simp] theorem loadPointsForFile_schoolSelectValue (net : Net) (now : Int) (file : String) (s : AppState) :
    (loadPointsForFile net now file s).1.schoolSelectValue = s.schoolSelectValue := by
  obtain ⟨_, _, _, _, h⟩ := loadPointsForFile_eq net now file s
  simp [h]

@[simp] theorem loadPointsForFile_historySelectValue (net : Net) (now : Int) (file : String) (s : AppState) :
    (loadPointsForFile net now file s).1.historySelectValue = s.historySelectValue := by
  obtain ⟨_, _, _, _, h⟩ := loadPointsForFile_eq net now file s
  simp [h]

@[simp] theorem loadPointsForFile_showPoints (net : Net) (now : Int) (file : String) (s : AppState) :
    (loadPointsForFile net now file s).1.showPoints = s.showPoints := by
  obtain ⟨_, _, _, _, h⟩ := loadPointsForFile_eq net now file s
  simp [h]

@[simp] theorem loadPointsForFile_showItems (net : Net) (now : Int) (file : String) (s : AppState) :
    (loadPointsForFile net now file s).1.showItems = s.showItems := by
  obtain ⟨_, _, _, _, h⟩ := loadPointsForFile_eq net now file s
  simp [h]

@[simp] theorem loadPointsForFile_cachePolygons (net : Net) (now : Int) (file : String) (s : AppState) :
    (loadPointsForFile net now file s).1.cachePolygons = s.cachePolygons := by
  obtain ⟨_, _, _, _, h⟩ := loadPointsForFile_eq net now file s
  simp [h]

@[simp] theorem loadPointsForFile_cacheItems (net : Net) (now : Int) (file : String) (s : AppState) :
    (loadPointsForFile net now file s).1.cacheItems = s.cacheItems := by
  obtain ⟨_, _, _, _, h⟩ := loadPointsForFile_eq net now file s
  simp [h]

@[simp] theorem loadPointsForFile_cacheHistoryList (net : Net) (now : Int) (file : String) (s : AppState) :
    (loadPointsForFile net now file s).1.cacheHistoryList = s.cacheHistoryList := by
  obtain ⟨_, _, _, _, h⟩ := loadPointsForFile_eq net now file s
  simp [h]

@[simp] theorem loadPointsForFile_cacheHistoryItem (net : Net) (now : Int) (file : String) (s : AppState) :
    (loadPointsForFile net now file s).1.cacheHistoryItem = s.cacheHistoryItem := by
  obtain ⟨_, _, _, _, h⟩ := loadPointsForFile_eq net now file s
  simp [h]

@[simp] theorem loadPointsForFile_cacheIndex (net : Net) (now : Int) (file : String) (s : AppState) :
    (loadPointsForFile net now file s).1.cacheIndex = s.cacheIndex := by
  obtain ⟨_, _, _, _, h⟩ := loadPointsForFile_eq net now file s
  simp [h]

@[simp] theorem loadItemsForFile_currentPolygonLayer (net : Net) (now : Int) (file : String) (s : AppState) :
    (loadItemsForFile net now file s).1.currentPolygonLayer = s.currentPolygonLayer := by
  obtain ⟨_, _, _, _, h⟩ := loadItemsForFile_eq net now file s
  simp [h]

@[simp] theorem loadItemsForFile_currentPointsLayer (net : Net) (now : Int) (file : String) (s : AppState) :
    (loadItemsForFile net now file s).1.currentPointsLayer = s.currentPointsLayer := by
  obtain ⟨_, _, _, _, h⟩ := loadItemsForFile_eq net now file s
  simp [h]

@[simp] theorem loadItemsForFile_polygonEditors (net : Net) (now : Int) (file : String) (s : AppState) :
    (loadItemsForFile net now file s).1.polygonEditors = s.polygonEditors := by
  obtain ⟨_, _, _, _, h⟩ := loadItemsForFile_eq net now file s
  simp [h]

@[simp] theorem loadItemsForFile_isPolygonEditing (net : Net) (now : Int) (file : String) (s : AppState) :
    (loadItemsForFile net now file s).1.isPolygonEditing = s.isPolygonEditing := by
  obtain ⟨_, _, _, _, h⟩ := loadItemsForFile_eq net now file s
  simp [h]

@[simp] theorem loadItemsForFile_isPointsEditing (net : Net) (now : Int) (file : String) (s : AppState) :
    (loadItemsForFile net now file s).1.isPointsEditing = s.isPointsEditing := by
  obtain ⟨_, _, _, _, h⟩ := loadItemsForFile_eq net now file s
  simp [h]

@[simp] theorem loadItemsForFile_originalPolygonGeoJSON (net : Net) (now : Int) (file : String) (s : AppState) :
    (loadItemsForFile net now file s).1.originalPolygonGeoJSON = s.originalPolygonGeoJSON := by
  obtain ⟨_, _, _, _, h⟩ := loadItemsForFile_eq net now file s
  simp [h]

@[simp] theorem loadItemsForFile_originalPointsGeoJSON (net : Net) (now : Int) (file : String) (s : AppState) :
    (loadItemsForFile net now file s).1.originalPointsGeoJSON = s.originalPointsGeoJSON := by
  obtain ⟨_, _, _, _, h⟩ := loadItemsForFile_eq net now file s
  simp [h]

@[simp] theorem loadItemsForFile_currentFileName (net : Net) (now : Int) (file : String) (s : AppState) :
    (loadItemsForFile net now file s).1.currentFileName = s.currentFileName := by
  obtain ⟨_, _, _, _, h⟩ := loadItemsForFile_eq net now file s
  simp [h]

@[simp] theorem loadItemsForFile_currentFileSource (net : Net) (now : Int) (file : String) (s : AppState) :
    (loadItemsForFile net now file s).1.currentFileSource = s.currentFileSource := by
  obtain ⟨_, _, _, _, h⟩ := loadItemsForFile_eq net now file s
  simp [h]

@[simp] theorem loadItemsForFile_fileSelectValue (net : Net) (now : Int) (file : String) (s : AppState) :
    (loadItemsForFile net now file s).1.fileSelectValue = s.fileSelectValue := by
  obtain ⟨_, _, _, _, h⟩ := loadItemsForFile_eq net now file s
  simp [h]

@[simp] theorem loadItemsForFile_schoolSelectValue (net : Net) (now : Int) (file : String) (s : AppState) :
    (loadItemsForFile net now file s).1.schoolSelectValue = s.schoolSelectValue := by
  obtain ⟨_, _, _, _, h⟩ := loadItemsForFile_eq net now file s
  simp [h]

@[simp] theorem loadItemsForFile_historySelectValue (net : Net) (now : Int) (file : String) (s : AppState) :
    (loadItemsForFile net now file s).1.historySelectValue = s.historySelectValue := by
  obtain ⟨_, _, _, _, h⟩ := loadItemsForFile_eq net now file s
  simp [h]

@[simp] theorem loadItemsForFile_showPoints (net : Net) (now : Int) (file : String) (s : AppState) :
    (loadItemsForFile net now file s).1.showPoints = s.showPoints := by
  obtain ⟨_, _, _, _, h⟩ := loadItemsForFile_eq net now file s
  simp [h]

@[simp] theorem loadItemsForFile_showItems (net : Net) (now : Int) (file : String) (s : AppState) :
    (loadItemsForFile net now file s).1.showItems = s.showItems := by
  obtain ⟨_, _, _, _, h⟩ := loadItemsForFile_eq net now file s
  simp [h]

@[simp] theorem loadItemsForFile_cachePolygons (net : Net) (now : Int) (file : String) (s : AppState) :
    (loadItemsForFile net now file s).1.cachePolygons = s.cachePolygons := by
  obtain ⟨_, _, _, _, h⟩ := loadItemsForFile_eq net now file s
  simp [h]

@[simp] theorem loadItemsForFile_cachePoints (net : Net) (now : Int) (file : String) (s : AppState) :
    (loadItemsForFile net now file s).1.cachePoints = s.cachePoints := by
  obtain ⟨_, _, _, _, h⟩ := loadItemsForFile_eq net now file s
  simp [h]

@[simp] theorem loadItemsForFile_cacheHistoryList (net : Net) (now : Int) (file : String) (s : AppState) :
    (loadItemsForFile net now file s).1.cacheHistoryList = s.cacheHistoryList := by
  obtain ⟨_, _, _, _, h⟩ := loadItemsForFile_eq net now file s
  simp [h]

@[simp] theorem loadItemsForFile_cacheHistoryItem (net : Net) (now : Int) (file : String) (s : AppState) :
    (loadItemsForFile net now file s).1.cacheHistoryItem = s.cacheHistoryItem := by
  obtain ⟨_, _, _, _, h⟩ := loadItemsForFile_eq net now file s
  simp [h]

@[simp] theorem loadItemsForFile_cacheIndex (net : Net) (now : Int) (file : String) (s : AppState) :
    (loadItemsForFile net now file s).1.cacheIndex = s.cacheIndex := by
  obtain ⟨_, _, _, _, h⟩ := loadItemsForFile_eq net now file s
  simp [h]

@[simp] theorem loadHistoryList_currentPolygonLayer (net : Net) (now : Int) (force : Bool) (s : AppState) :
    (loadHistoryList net now force s).1.currentPolygonLayer = s.currentPolygonLayer := by
  obtain ⟨_, _, h⟩ := loadHistoryList_eq net now force s
  simp [h]

@[simp] theorem loadHistoryList_currentPointsLayer (net : Net) (now : Int) (force : Bool) (s : AppState) :
    (loadHistoryList net now force s).1.currentPointsLayer = s.currentPointsLayer := by
  obtain ⟨_, _, h⟩ := loadHistoryList_eq net now force s
  simp [h]

@[simp] theorem loadHistoryList_currentItemsLayer (net : Net) (now : Int) (force : Bool) (s : AppState) :
    (loadHistoryList net now force s).1.currentItemsLayer = s.currentItemsLayer := by
  obtain ⟨_, _, h⟩ := loadHistoryList_eq net now force s
  simp [h]

@[simp] theorem loadHistoryList_polygonEditors (net : Net) (now : Int) (force : Bool) (s : AppState) :
    (loadHistoryList net now force s).1.polygonEditors = s.polygonEditors := by
  obtain ⟨_, _, h⟩ := loadHistoryList_eq net now force s
  simp [h]

@[simp] theorem loadHistoryList_isPolygonEditing (net : Net) (now : Int) (force : Bool) (s : AppState) :
    (loadHistoryList net now force s).1.isPolygonEditing = s.isPolygonEditing := by
  obtain ⟨_, _, h⟩ := loadHistoryList_eq net now force s
  simp [h]

@[simp] theorem loadHistoryList_isPointsEditing (net : Net) (now : Int) (force : Bool) (s : AppState) :
    (loadHistoryList net now force s).1.isPointsEditing = s.isPointsEditing := by
  obtain ⟨_, _, h⟩ := loadHistoryList_eq net now force s
  simp [h]

@[simp] theorem loadHistoryList_originalPolygonGeoJSON (net : Net) (now : Int) (force : Bool) (s : AppState) :
    (loadHistoryList net now force s).1.originalPolygonGeoJSON = s.originalPolygonGeoJSON := by
  obtain ⟨_, _, h⟩ := loadHistoryList_eq net now force s
  simp [h]

@[simp] theorem loadHistoryList_originalPointsGeoJSON (net : Net) (now : Int) (force : Bool) (s : AppState) :
    (loadHistoryList net now force s).1.originalPointsGeoJSON = s.originalPointsGeoJSON := by
  obtain ⟨_, _, h⟩ := loadHistoryList_eq net now force s
  simp [h]

@[simp] theorem loadHistoryList_originalItemsGeoJSON (net : Net) (now : Int) (force : Bool) (s : AppState) :
    (loadHistoryList net now force s).1.originalItemsGeoJSON = s.originalItemsGeoJSON := by
  obtain ⟨_, _, h⟩ := loadHistoryList_eq net now force s
  simp [h]

@[simp] theorem loadHistoryList_currentFileName (net : Net) (now : Int) (force : Bool) (s : AppState) :
    (loadHistoryList net now force s).1.currentFileName = s.currentFileName := by
  obtain ⟨_, _, h⟩ := loadHistoryList_eq net now force s
  simp [h]

@[simp] theorem loadHistoryList_currentFileSource (net : Net) (now : Int) (force : Bool) (s : AppState) :
    (loadHistoryList net now force s).1.currentFileSource = s.currentFileSource := by
  obtain ⟨_, _, h⟩ := loadHistoryList_eq net now force s
  simp [h]

@[simp] theorem loadHistoryList_fileSelectValue (net : Net) (now : Int) (force : Bool) (s : AppState) :
    (loadHistoryList net now force s).1.fileSelectValue = s.fileSelectValue := by
  obtain ⟨_, _, h⟩ := loadHistoryList_eq net now force s
  simp [h]

@[simp] theorem loadHistoryList_schoolSelectValue (net : Net) (now : Int) (force : Bool) (s : AppState) :
    (loadHistoryList net now force s).1.schoolSelectValue = s.schoolSelectValue := by
  obtain ⟨_, _, h⟩ := loadHistoryList_eq net now force s
  simp [h]

@[simp] theorem loadHistoryList_historySelectValue (net : Net) (now : Int) (force : Bool) (s : AppState) :
    (loadHistoryList net now force s).1.historySelectValue = s.historySelectValue := by
  obtain ⟨_, _, h⟩ := loadHistoryList_eq net now force s
  simp [h]

@[simp] theorem loadHistoryList_showPoints (net : Net) (now : Int) (force : Bool) (s : AppState) :
    (loadHistoryList net now force s).1.showPoints = s.showPoints := by
  obtain ⟨_, _, h⟩ := loadHistoryList_eq net now force s
  simp [h]

@[simp] theorem loadHistoryList_showItems (net : Net) (now : Int) (force : Bool) (s : AppState) :
    (loadHistoryList net now force s).1.showItems = s.showItems := by
  obtain ⟨_, _, h⟩ := loadHistoryList_eq net now force s
  simp [h]

@[simp] theorem loadHistoryList_cachePolygons (net : Net) (now : Int) (force : Bool) (s : AppState) :
    (loadHistoryList net now force s).1.cachePolygons = s.cachePolygons := by
  obtain ⟨_, _, h⟩ := loadHistoryList_eq net now force s
  simp [h]

@[simp] theorem loadHistoryList_cachePoints (net : Net) (now : Int) (force : Bool) (s : AppState) :
    (loadHistoryList net now force s).1.cachePoints = s.cachePoints := by
  obtain ⟨_, _, h⟩ := loadHistoryList_eq net now force s
  simp [h]

@[simp] theorem loadHistoryList_cacheItems (net : Net) (now : Int) (force : Bool) (s : AppState) :
    (loadHistoryList net now force s).1.cacheItems = s.cacheItems := by
  obtain ⟨_, _, h⟩ := loadHistoryList_eq net now force s
  simp [h]

@[simp] theorem loadHistoryList_cacheHistoryItem (net : Net) (now : Int) (force : Bool) (s : AppState) :
    (loadHistoryList net now force s).1.cacheHistoryItem = s.cacheHistoryItem := by
  obtain ⟨_, _, h⟩ := loadHistoryList_eq net now force s
  simp [h]

@[simp] theorem loadHistoryList_cacheIndex (net : Net) (now : Int) (force : Bool) (s : AppState) :
    (loadHistoryList net now force s).1.cacheIndex = s.cacheIndex := by
  obtain ⟨_, _, h⟩ := loadHistoryList_eq net now force s
  simp [h]

@[simp] theorem loadIndex_currentPolygonLayer (net : Net) (now : Int) (force : Bool) (s : AppState) :
    (loadIndex net now force s).1.currentPolygonLayer = s.currentPolygonLayer := by
  obtain ⟨_, _, h⟩ := loadIndex_eq net now force s
  simp [h]

@[simp] theorem loadIndex_currentPointsLayer (net : Net) (now : Int) (force : Bool) (s : AppState) :
    (loadIndex net now force s).1.currentPointsLayer = s.currentPointsLayer := by
  obtain ⟨_, _, h⟩ := loadIndex_eq net now force s
  simp [h]

@[simp] theorem loadIndex_currentItemsLayer (net : Net) (now : Int) (force : Bool) (s : AppState) :
    (loadIndex net now force s).1.currentItemsLayer = s.currentItemsLayer := by
  obtain ⟨_, _, h⟩ := loadIndex_eq net now force s
  simp [h]

@[simp] theorem loadIndex_polygonEditors (net : Net) (now : Int) (force : Bool) (s : AppState) :
    (loadIndex net now force s).1.polygonEditors = s.polygonEditors := by
  obtain ⟨_, _, h⟩ := loadIndex_eq net now force s
  simp [h]

@[simp] theorem loadIndex_isPolygonEditing (net : Net) (now : Int) (force : Bool) (s : AppState) :
    (loadIndex net now force s).1.isPolygonEditing = s.isPolygonEditing := by
  obtain ⟨_, _, h⟩ := loadIndex_eq net now force s
  simp [h]

@[simp] theorem loadIndex_isPointsEditing (net : Net) (now : Int) (force : Bool) (s : AppState) :
    (loadIndex net now force s).1.isPointsEditing = s.isPointsEditing := by
  obtain ⟨_, _, h⟩ := loadIndex_eq net now force s
  simp [h]

@[simp] theorem loadIndex_originalPolygonGeoJSON (net : Net) (now : Int) (force : Bool) (s : AppState) :
    (loadIndex net now force s).1.originalPolygonGeoJSON = s.originalPolygonGeoJSON := by
  obtain ⟨_, _, h⟩ := loadIndex_eq net now force s
  simp [h]

@[simp] theorem loadIndex_originalPointsGeoJSON (net : Net) (now : Int) (force : Bool) (s : AppState) :
    (loadIndex net now force s).1.originalPointsGeoJSON = s.originalPointsGeoJSON := by
  obtain ⟨_, _, h⟩ := loadIndex_eq net now force s
  simp [h]

@[simp] theorem loadIndex_originalItemsGeoJSON (net : Net) (now : Int) (force : Bool) (s : AppState) :
    (loadIndex net now force s).1.originalItemsGeoJSON = s.originalItemsGeoJSON := by
  obtain ⟨_, _, h⟩ := loadIndex_eq net now force s
  simp [h]

@[simp] theorem loadIndex_currentFileName (net : Net) (now : Int) (force : Bool) (s : AppState) :
    (loadIndex net now force s).1.currentFileName = s.currentFileName := by
  obtain ⟨_, _, h⟩ := loadIndex_eq net now force s
  simp [h]

@[simp] theorem loadIndex_currentFileSource (net : Net) (now : Int) (force : Bool) (s : AppState) :
    (loadIndex net now force s).1.currentFileSource = s.currentFileSource := by
  obtain ⟨_, _, h⟩ := loadIndex_eq net now force s
  simp [h]

@[simp] theorem loadIndex_fileSelectValue (net : Net) (now : Int) (force : Bool) (s : AppState) :
    (loadIndex net now force s).1.fileSelectValue = s.fileSelectValue := by
  obtain ⟨_, _, h⟩ := loadIndex_eq net now force s
  simp [h]

@[simp] theorem loadIndex_schoolSelectValue (net : Net) (now : Int) (force : Bool) (s : AppState) :
    (loadIndex net now force s).1.schoolSelectValue = s.schoolSelectValue := by
  obtain ⟨_, _, h⟩ := loadIndex_eq net now force s
  simp [h]

@[simp] theorem loadIndex_historySelectValue (net : Net) (now : Int) (force : Bool) (s : AppState) :
    (loadIndex net now force s).1.historySelectValue = s.historySelectValue := by
  obtain ⟨_, _, h⟩ := loadIndex_eq net now force s
  simp [h]

@[simp] theorem loadIndex_showPoints (net : Net) (now : Int) (force : Bool) (s : AppState) :
    (loadIndex net now force s).1.showPoints = s.showPoints := by
  obtain ⟨_, _, h⟩ := loadIndex_eq net now force s
  simp [h]

@[simp] theorem loadIndex_showItems (net : Net) (now : Int) (force : Bool) (s : AppState) :
    (loadIndex net now force s).1.showItems = s.showItems := by
  obtain ⟨_, _, h⟩ := loadIndex_eq net now force s
  simp [h]

@[simp] theorem loadIndex_cachePolygons (net : Net) (now : Int) (force : Bool) (s : AppState) :
    (loadIndex net now force s).1.cachePolygons = s.cachePolygons := by
  obtain ⟨_, _, h⟩ := loadIndex_eq net now force s
  simp [h]

@[simp] theorem loadIndex_cachePoints (net : Net) (now : Int) (force : Bool) (s : AppState) :
    (loadIndex net now force s).1.cachePoints = s.cachePoints := by
  obtain ⟨_, _, h⟩ := loadIndex_eq net now force s
  simp [h]

@[simp] theorem loadIndex_cacheItems (net : Net) (now : Int) (force : Bool) (s : AppState) :
    (loadIndex net now force s).1.cacheItems = s.cacheItems := by
  obtain ⟨_, _, h⟩ := loadIndex_eq net now force s
  simp [h]

@[simp] theorem loadIndex_cacheHistoryList (net : Net) (now : Int) (force : Bool) (s : AppState) :
    (loadIndex net now force s).1.cacheHistoryList = s.cacheHistoryList := by
  obtain ⟨_, _, h⟩ := loadIndex_eq net now force s
  simp [h]

@[simp] theorem loadIndex_cacheHistoryItem (net : Net) (now : Int) (force : Bool) (s : AppState) :
    (loadIndex net now force s).1.cacheHistoryItem = s.cacheHistoryItem := by
  obtain ⟨_, _, h⟩ := loadIndex_eq net now force s
  simp [h]

/-- On a fresh polygon-cache hit, `loadSelectedFile` renders the cached
collection as the polygon layer (the trailing points/items/history loads do
not touch it). -/
theorem loadSelectedFile_polygonLayer (net : Net) (now : Int) (s : AppState)
    (entry : CacheEntry GeoJSON)
    (hfile : s.fileSelectValue ≠ "")
    (hcache : mapGet s.cachePolygons s.fileSelectValue = some entry)
    (hfresh : now - entry.ts ≤ CACHE_TTL_MS) :
    (loadSelectedFile net now s).1.currentPolygonLayer
      = some (createOverlaysFromGeoJSON (some entry.data) {}) := by
  simp only [loadSelectedFile, if_neg hfile]
  simp only [fetchJsonWithCache, cacheGet, Bool.false_eq_true, if_false]
  simp only [clearAllLayers_cachePolygons, clearItemsLayer_cachePolygons,
    clearPointsLayer_cachePolygons, clearPolygonLayer_cachePolygons,
    disableAllEditing_cachePolygons]
  simp only [hcache, if_neg (not_lt.mpr hfresh), Option.getD_some]
  repeat' split
  all_goals simp

/-- C6 (amended): on a server-sourced file, `resetEdits` reloads the file and
re-renders the last server-fetched polygon collection, so reading the layer
back through `overlaysToGeoJSON` reproduces that collection feature for
feature provided every feature is a single-Polygon feature with a non-null
properties object (a MultiPolygon feature instead reads back as several
separate Polygon features, see the counterexample); on a local- or
history-sourced file it issues no request at all and re-renders the polygon
layer from the in-memory original snapshot. -/
theorem reset_edits_semantics :
    ∀ (net : Net) (now : Int) (s : AppState) (entry : CacheEntry GeoJSON)
      (fs : List Feature) (g : GeoJSON),
      (s.currentFileSource = "server" →
        s.fileSelectValue ≠ "" →
        mapGet s.cachePolygons s.fileSelectValue = some entry →
        now - entry.ts ≤ CACHE_TTL_MS →
        entry.data = .featureCollection fs →
        (∀ f ∈ fs, (∃ rs, f.geometry = some (.polygon rs))
            ∧ ∃ ps, f.properties = some ps) →
        overlaysToGeoJSON (step net now s .resetEditsClick).1.currentPolygonLayer
            "Polygon"
          = .featureCollection fs)
      ∧ (s.currentFileSource ≠ "server" →
          (step net now s .resetEditsClick).2 = []
          ∧ (s.originalPolygonGeoJSON = some g →
              (step net now s .resetEditsClick).1.currentPolygonLayer
                = some (createOverlaysFromGeoJSON (some g) {}))) := by
  intro net now s entry fs g
  constructor
  · intro hsrc hfile hcache hfresh hdata hfs
    have hf2 : (disableAllEditing s).fileSelectValue ≠ "" := by simpa using hfile
    have hc2 : mapGet (disableAllEditing s).cachePolygons
        (disableAllEditing s).fileSelectValue = some entry := by simpa using hcache
    have hlayer := loadSelectedFile_polygonLayer net now (disableAllEditing s)
      entry hf2 hc2 hfresh
    simp only [step, resetEdits, disableAllEditing_currentFileSource]
    rw [if_pos hsrc, hlayer, hdata]
    exact overlays_roundtrip_polygon fs {} hfs
  · intro hsrc
    simp only [step, resetEdits, disableAllEditing_currentFileSource]
    rw [if_neg hsrc]
    constructor
    · simp
    · intro hor
      simp only [disableAllEditing_originalPolygonGeoJSON, hor]
      repeat' split
      all_goals simp_all

/-- FeatureCollection whose single feature is a two-part MultiPolygon. -/
def fcMP : GeoJSON :=
  .featureCollection [⟨some (.multiPolygon [[[⟨0, 0⟩, ⟨1, 0⟩]], [[⟨2, 2⟩, ⟨3, 3⟩]]]),
    some []⟩]

/-- Network oracle whose polygon endpoint serves the MultiPolygon file. -/
def mpNet : Net := { cxNet with polygons := fun _ => .ok fcMP }

/-- Server-sourced state with an uncommitted polygon edit, reached from the
initial state by loading file `A` (a single MultiPolygon feature), enabling
polygon editing, and dragging a vertex of the first overlay. -/
def c6State : AppState :=
  (runEvents mpNet
    [(0, .selectFile "A"), (1, .editPolygonClick),
     (2, .polygonDrag 0 [[⟨9, 9⟩]])] initState).1

/-- C6 counterexample: resetting edits on this server-sourced file does
discard the in-overlay edit, but reading the restored layer back yields two
separate Polygon features, not the MultiPolygon collection the server
delivered — the read-back is not feature-for-feature equal to the last
server-fetched collection. -/
theorem reset_edits_counterexample :
    c6State.currentFileSource = "server"
    ∧ overlaysToGeoJSON
        (step mpNet 3 c6State .resetEditsClick).1.currentPolygonLayer "Polygon"
      = .featureCollection
          [⟨some (.polygon [[⟨0, 0⟩, ⟨1, 0⟩]]), some []⟩,
           ⟨some (.polygon [[⟨2, 2⟩, ⟨3, 3⟩]]), some []⟩]
    ∧ overlaysToGeoJSON
        (step mpNet 3 c6State .resetEditsClick).1.currentPolygonLayer "Polygon"
      ≠ fcMP := by
  decide

/-- State with server file `A` (plain Polygon features) freshly loaded. -/
def c6Good : AppState :=
  (runEvents cxNet [(0, .selectFile "A")] initState).1

theorem reset_edits_semantics_witness :
    overlaysToGeoJSON (step cxNet 1 c6Good .resetEditsClick).1.currentPolygonLayer
        "Polygon"
      = .featureCollection [⟨some (.polygon [[⟨0, 0⟩, ⟨1, 0⟩, ⟨1, 1⟩]]),
          some [("school_name", "X")]⟩] :=
  (reset_edits_semantics cxNet 1 c6Good ⟨0, fcA⟩
      [⟨some (.polygon [[⟨0, 0⟩, ⟨1, 0⟩, ⟨1, 1⟩]]), some [("school_name", "X")]⟩]
      fcA).1
    (by decide) (by decide) (by decide) (by decide) (by decide)
    (by
      intro f hf
      simp only [List.mem_singleton] at hf
      subst hf
      exact ⟨⟨_, rfl⟩, _, rfl⟩)

/-! ### Projection lemmas for the remaining handlers (C1, C3) -/

set_option maxHeartbeats 1000000 in
/-- Viewing (not promoting) a history snapshot renders with
`skipOriginal = true`, so `applyHistoryData … false` only changes the
layers, the file context, the school value and the status — never the
original snapshots. -/
theorem applyHistoryData_history_eq (s : AppState) (data : HistorySnapshot) :
    ∃ pl pts st,
      applyHistoryData s data false =
        { s with
          currentPolygonLayer := pl,
          currentPointsLayer := pts,
          currentItemsLayer := none,
          currentFileName :=
            if data.file_name != "" then some data.file_name else s.currentFileName,
          currentFileSource := "history",
          schoolSelectValue := data.school_name,
          status := st } := by
  simp only [applyHistoryData, Bool.not_false, Bool.false_eq_true, ite_false]
  repeat' split
  all_goals exact ⟨_, _, _, rfl⟩

@[simp] theorem applyHistoryData_false_originalPolygonGeoJSON
    (s : AppState) (data : HistorySnapshot) :
    (applyHistoryData s data false).originalPolygonGeoJSON
      = s.originalPolygonGeoJSON := by
  obtain ⟨_, _, _, h⟩ := applyHistoryData_history_eq s data
  simp [h]

@[simp] theorem applyHistoryData_false_originalPointsGeoJSON
    (s : AppState) (data : HistorySnapshot) :
    (applyHistoryData s data false).originalPointsGeoJSON
      = s.originalPointsGeoJSON := by
  obtain ⟨_, _, _, h⟩ := applyHistoryData_history_eq s data
  simp [h]

set_option maxHeartbeats 1000000 in
@[simp] theorem applyHistoryData_polygonEditors (s : AppState) (data : HistorySnapshot) (ac : Bool) :
    (applyHistoryData s data ac).polygonEditors = s.polygonEditors := by
  obtain ⟨_, _, _, _, _, h⟩ := applyHistoryData_eq s data ac
  simp [h]

set_option maxHeartbeats 1000000 in
@[simp] theorem applyHistoryData_isPolygonEditing (s : AppState) (data : HistorySnapshot) (ac : Bool) :
    (applyHistoryData s data ac).isPolygonEditing = s.isPolygonEditing := by
  obtain ⟨_, _, _, _, _, h⟩ := applyHistoryData_eq s data ac
  simp [h]

set_option maxHeartbeats 1000000 in
@[simp] theorem applyHistoryData_isPointsEditing (s : AppState) (data : HistorySnapshot) (ac : Bool) :
    (applyHistoryData s data ac).isPointsEditing = s.isPointsEditing := by
  obtain ⟨_, _, _, _, _, h⟩ := applyHistoryData_eq s data ac
  simp [h]

set_option maxHeartbeats 1000000 in
@[simp] theorem applyHistoryData_originalItemsGeoJSON (s : AppState) (data : HistorySnapshot) (ac : Bool) :
    (applyHistoryData s data ac).originalItemsGeoJSON = s.originalItemsGeoJSON := by
  obtain ⟨_, _, _, _, _, h⟩ := applyHistoryData_eq s data ac
  simp [h]

set_option maxHeartbeats 1000000 in
@[simp] theorem applyHistoryData_fileSelectValue (s : AppState) (data : HistorySnapshot) (ac : Bool) :
    (applyHistoryData s data ac).fileSelectValue = s.fileSelectValue := by
  obtain ⟨_, _, _, _, _, h⟩ := applyHistoryData_eq s data ac
  simp [h]

set_option maxHeartbeats 1000000 in
@[simp] theorem applyHistoryData_showPoints (s : AppState) (data : HistorySnapshot) (ac : Bool) :
    (applyHistoryData s data ac).showPoints = s.showPoints := by
  obtain ⟨_, _, _, _, _, h⟩ := applyHistoryData_eq s data ac
  simp [h]

set_option maxHeartbeats 1000000 in
@[simp] theorem applyHistoryData_showItems (s : AppState) (data : HistorySnapshot) (ac : Bool) :
    (applyHistoryData s data ac).showItems = s.showItems := by
  obtain ⟨_, _, _, _, _, h⟩ := applyHistoryData_eq s data ac
  simp [h]

set_option maxHeartbeats 1000000 in
@[simp] theorem applyHistoryData_cachePolygons (s : AppState) (data : HistorySnapshot) (ac : Bool) :
    (applyHistoryData s data ac).cachePolygons = s.cachePolygons := by
  obtain ⟨_, _, _, _, _, h⟩ := applyHistoryData_eq s data ac
  simp [h]

set_option maxHeartbeats 1000000 in
@[simp] theorem applyHistoryData_cachePoints (s : AppState) (data : HistorySnapshot) (ac : Bool) :
    (applyHistoryData s data ac).cachePoints = s.cachePoints := by
  obtain ⟨_, _, _, _, _, h⟩ := applyHistoryData_eq s data ac
  simp [h]

set_option maxHeartbeats 1000000 in
@[simp] theorem applyHistoryData_cacheItems (s : AppState) (data : HistorySnapshot) (ac : Bool) :
    (applyHistoryData s data ac).cacheItems = s.cacheItems := by
  obtain ⟨_, _, _, _, _, h⟩ := applyHistoryData_eq s data ac
  simp [h]

set_option maxHeartbeats 1000000 in
@[simp] theorem applyHistoryData_cacheHistoryList (s : AppState) (data : HistorySnapshot) (ac : Bool) :
    (applyHistoryData s data ac).cacheHistoryList = s.cacheHistoryList := by
  obtain ⟨_, _, _, _, _, h⟩ := applyHistoryData_eq s data ac
  simp [h]

set_option maxHeartbeats 1000000 in
@[simp] theorem applyHistoryData_cacheHistoryItem (s : AppState) (data : HistorySnapshot) (ac : Bool) :
    (applyHistoryData s data ac).cacheHistoryItem = s.cacheHistoryItem := by
  obtain ⟨_, _, _, _, _, h⟩ := applyHistoryData_eq s data ac
  simp [h]

set_option maxHeartbeats 1000000 in
@[simp] theorem applyHistoryData_cacheIndex (s : AppState) (data : HistorySnapshot) (ac : Bool) :
    (applyHistoryData s data ac).cacheIndex = s.cacheIndex := by
  obtain ⟨_, _, _, _, _, h⟩ := applyHistoryData_eq s data ac
  simp [h]

set_option maxHeartbeats 1000000 in
@[simp] theorem applyHistoryData_currentItemsLayer (s : AppState) (data : HistorySnapshot) (ac : Bool) :
    (applyHistoryData s data ac).currentItemsLayer = none := by
  obtain ⟨_, _, _, _, _, h⟩ := applyHistoryData_eq s data ac
  simp [h]

set_option maxHeartbeats 1000000 in
@[simp] theorem togglePolygonEditing_originalPolygonGeoJSON (s : AppState) :
    (togglePolygonEditing s).originalPolygonGeoJSON = s.originalPolygonGeoJSON := by
  simp only [togglePolygonEditing]
  repeat' split
  all_goals simp

set_option maxHeartbeats 1000000 in
@[simp] theorem togglePolygonEditing_originalPointsGeoJSON (s : AppState) :
    (togglePolygonEditing s).originalPointsGeoJSON = s.originalPointsGeoJSON := by
  simp only [togglePolygonEditing]
  repeat' split
  all_goals simp

set_option maxHeartbeats 1000000 in
@[simp] theorem togglePolygonEditing_originalItemsGeoJSON (s : AppState) :
    (togglePolygonEditing s).originalItemsGeoJSON = s.originalItemsGeoJSON := by
  simp only [togglePolygonEditing]
  repeat' split
  all_goals simp

set_option maxHeartbeats 1000000 in
@[simp] theorem togglePointsEditing_originalPolygonGeoJSON (s : AppState) :
    (togglePointsEditing s).originalPolygonGeoJSON = s.originalPolygonGeoJSON := by
  simp only [togglePointsEditing]
  repeat' split
  all_goals simp

set_option maxHeartbeats 1000000 in
@[simp] theorem togglePointsEditing_originalPointsGeoJSON (s : AppState) :
    (togglePointsEditing s).originalPointsGeoJSON = s.originalPointsGeoJSON := by
  simp only [togglePointsEditing]
  repeat' split
  all_goals simp

set_option maxHeartbeats 1000000 in
@[simp] theorem togglePointsEditing_originalItemsGeoJSON (s : AppState) :
    (togglePointsEditing s).originalItemsGeoJSON = s.originalItemsGeoJSON := by
  simp only [togglePointsEditing]
  repeat' split
  all_goals simp

set_option maxHeartbeats 1000000 in
@[simp] theorem markerClickEdit_originalPolygonGeoJSON (s : AppState) (idx : Nat) (input : Option String) :
    (markerClickEdit s idx input).originalPolygonGeoJSON = s.originalPolygonGeoJSON := by
  simp only [markerClickEdit]
  repeat' split
  all_goals simp

set_option maxHeartbeats 1000000 in
@[simp] theorem markerClickEdit_originalPointsGeoJSON (s : AppState) (idx : Nat) (input : Option String) :
    (markerClickEdit s idx input).originalPointsGeoJSON = s.originalPointsGeoJSON := by
  simp only [markerClickEdit]
  repeat' split
  all_goals simp

set_option maxHeartbeats 1000000 in
@[simp] theorem markerClickEdit_originalItemsGeoJSON (s : AppState) (idx : Nat) (input : Option String) :
    (markerClickEdit s idx input).originalItemsGeoJSON = s.originalItemsGeoJSON := by
  simp only [markerClickEdit]
  repeat' split
  all_goals simp

set_option maxHeartbeats 1000000 in
@[simp] theorem polygonVertexDrag_originalPolygonGeoJSON (s : AppState) (idx : Nat) (p : List GeoRing) :
    (polygonVertexDrag s idx p).originalPolygonGeoJSON = s.originalPolygonGeoJSON := by
  simp only [polygonVertexDrag]
  repeat' split
  all_goals simp

set_option maxHeartbeats 1000000 in
@[simp] theorem polygonVertexDrag_originalPointsGeoJSON (s : AppState) (idx : Nat) (p : List GeoRing) :
    (polygonVertexDrag s idx p).originalPointsGeoJSON = s.originalPointsGeoJSON := by
  simp only [polygonVertexDrag]
  repeat' split
  all_goals simp

set_option maxHeartbeats 1000000 in
@[simp] theorem polygonVertexDrag_originalItemsGeoJSON (s : AppState) (idx : Nat) (p : List GeoRing) :
    (polygonVertexDrag s idx p).originalItemsGeoJSON = s.originalItemsGeoJSON := by
  simp only [polygonVertexDrag]
  repeat' split
  all_goals simp

set_option maxHeartbeats 1000000 in
@[simp] theorem savePolygonClickHandler_originalPointsGeoJSON (net : Net) (now : Int) (s : AppState) :
    (savePolygonClickHandler net now s).1.originalPointsGeoJSON = s.originalPointsGeoJSON := by
  simp only [savePolygonClickHandler, saveGeoJSON]
  repeat' split
  all_goals simp

set_option maxHeartbeats 1000000 in
@[simp] theorem savePolygonClickHandler_originalItemsGeoJSON (net : Net) (now : Int) (s : AppState) :
    (savePolygonClickHandler net now s).1.originalItemsGeoJSON = s.originalItemsGeoJSON := by
  simp only [savePolygonClickHandler, saveGeoJSON]
  repeat' split
  all_goals simp

set_option maxHeartbeats 1000000 in
@[simp] theorem savePointsClickHandler_originalPolygonGeoJSON (net : Net) (now : Int) (s : AppState) :
    (savePointsClickHandler net now s).1.originalPolygonGeoJSON = s.originalPolygonGeoJSON := by
  simp only [savePointsClickHandler, saveGeoJSON]
  repeat' split
  all_goals simp

set_option maxHeartbeats 1000000 in
@[simp] theorem savePointsClickHandler_originalItemsGeoJSON (net : Net) (now : Int) (s : AppState) :
    (savePointsClickHandler net now s).1.originalItemsGeoJSON = s.originalItemsGeoJSON := by
  simp only [savePointsClickHandler, saveGeoJSON]
  repeat' split
  all_goals simp

set_option maxHeartbeats 1000000 in
@[simp] theorem saveCurrentToDatabase_originalPolygonGeoJSON (net : Net) (now : Int) (s : AppState) :
    (saveCurrentToDatabase net now s).1.originalPolygonGeoJSON = s.originalPolygonGeoJSON := by
  simp only [saveCurrentToDatabase]
  repeat' split
  all_goals simp

set_option maxHeartbeats 1000000 in
@[simp] theorem saveCurrentToDatabase_originalPointsGeoJSON (net : Net) (now : Int) (s : AppState) :
    (saveCurrentToDatabase net now s).1.originalPointsGeoJSON = s.originalPointsGeoJSON := by
  simp only [saveCurrentToDatabase]
  repeat' split
  all_goals simp

set_option maxHeartbeats 1000000 in
@[simp] theorem saveCurrentToDatabase_originalItemsGeoJSON (net : Net) (now : Int) (s : AppState) :
    (saveCurrentToDatabase net now s).1.originalItemsGeoJSON = s.originalItemsGeoJSON := by
  simp only [saveCurrentToDatabase]
  repeat' split
  all_goals simp

set_option maxHeartbeats 1000000 in
@[simp] theorem applySchoolFilter_originalPolygonGeoJSON (net : Net) (now : Int) (s : AppState) :
    (applySchoolFilter net now s).1.originalPolygonGeoJSON = s.originalPolygonGeoJSON := by
  simp only [applySchoolFilter]
  repeat' split
  all_goals simp

set_option maxHeartbeats 1000000 in
@[simp] theorem applySchoolFilter_isPolygonEditing (net : Net) (now : Int) (s : AppState) :
    (applySchoolFilter net now s).1.isPolygonEditing = s.isPolygonEditing := by
  simp only [applySchoolFilter]
  repeat' split
  all_goals simp

set_option maxHeartbeats 1000000 in
@[simp] theorem applySchoolFilter_isPointsEditing (net : Net) (now : Int) (s : AppState) :
    (applySchoolFilter net now s).1.isPointsEditing = s.isPointsEditing := by
  simp only [applySchoolFilter]
  repeat' split
  all_goals simp

set_option maxHeartbeats 1000000 in
@[simp] theorem loadHistoryById_originalPolygonGeoJSON (net : Net) (now : Int) (sid : String) (s : AppState) :
    (loadHistoryById net now sid s).1.originalPolygonGeoJSON = s.originalPolygonGeoJSON := by
  simp only [loadHistoryById]
  repeat' split
  all_goals simp

set_option maxHeartbeats 1000000 in
@[simp] theorem loadHistoryById_originalPointsGeoJSON (net : Net) (now : Int) (sid : String) (s : AppState) :
    (loadHistoryById net now sid s).1.originalPointsGeoJSON = s.originalPointsGeoJSON := by
  simp only [loadHistoryById]
  repeat' split
  all_goals simp

set_option maxHeartbeats 1000000 in
@[simp] theorem loadHistoryById_originalItemsGeoJSON (net : Net) (now : Int) (sid : String) (s : AppState) :
    (loadHistoryById net now sid s).1.originalItemsGeoJSON = s.originalItemsGeoJSON := by
  simp only [loadHistoryById]
  repeat' split
  all_goals simp

set_option maxHeartbeats 1000000 in
@[simp] theorem loadHistoryById_isPolygonEditing (net : Net) (now : Int) (sid : String) (s : AppState) :
    (loadHistoryById net now sid s).1.isPolygonEditing = if sid = "" then s.isPolygonEditing else false := by
  by_cases h : sid = ""
  · simp [loadHistoryById, h]
  · simp only [loadHistoryById, if_neg h]
    repeat' split
    all_goals simp [h]

set_option maxHeartbeats 1000000 in
@[simp] theorem loadHistoryById_isPointsEditing (net : Net) (now : Int) (sid : String) (s : AppState) :
    (loadHistoryById net now sid s).1.isPointsEditing = if sid = "" then s.isPointsEditing else false := by
  by_cases h : sid = ""
  · simp [loadHistoryById, h]
  · simp only [loadHistoryById, if_neg h]
    repeat' split
    all_goals simp [h]

set_option maxHeartbeats 1000000 in
@[simp] theorem restoreHistoryAsCurrent_originalItemsGeoJSON (net : Net) (now : Int) (s : AppState) :
    (restoreHistoryAsCurrent net now s).1.originalItemsGeoJSON = s.originalItemsGeoJSON := by
  simp only [restoreHistoryAsCurrent]
  repeat' split
  all_goals simp

set_option maxHeartbeats 1000000 in
@[simp] theorem loadSelectedFile_isPolygonEditing (net : Net) (now : Int) (s : AppState) :
    (loadSelectedFile net now s).1.isPolygonEditing = if s.fileSelectValue = "" then s.isPolygonEditing else false := by
  by_cases h : s.fileSelectValue = ""
  · simp [loadSelectedFile, h]
  · simp only [loadSelectedFile, if_neg h]
    repeat' split
    all_goals simp [h]

set_option maxHeartbeats 1000000 in
@[simp] theorem loadSelectedFile_isPointsEditing (net : Net) (now : Int) (s : AppState) :
    (loadSelectedFile net now s).1.isPointsEditing = if s.fileSelectValue = "" then s.isPointsEditing else false := by
  by_cases h : s.fileSelectValue = ""
  · simp [loadSelectedFile, h]
  · simp only [loadSelectedFile, if_neg h]
    repeat' split
    all_goals simp [h]


/-! ### Edit-session guards (C3) -/

/-- State reached from the initial page state by loading server file `A`,
turning the points layer on, enabling point editing, and then turning the
points layer off again via its visibility checkbox. -/
def c3Trace : AppState :=
  (runEvents cxNet
    [(0, .selectFile "A"), (1, .togglePointsBox true),
     (2, .editPointsClick), (3, .togglePointsBox false)] initState).1

/-- C3 counterexample: in the reachable state `c3Trace` the points edit
session is still active although the points layer has been cleared and holds
zero overlays — clearing a layer through its visibility checkbox does not
deactivate its edit session. -/
theorem edit_session_counterexample :
    c3Trace.isPointsEditing = true ∧ c3Trace.currentPointsLayer = none := by
  decide

/-- C3 (amended): attempting to switch an edit session on while a school
filter is active or while the layer holds no overlays is a no-op on the
session flag, and the edit sessions are forced inactive by every file
change, school-filter change, history selection and successful local-file
open; however, clearing a layer alone (unchecking its visibility box) does
not deactivate its session, so an active session with zero overlays is
reachable (see the counterexample). -/
theorem edit_session_guards :
    ∀ (net : Net) (now : Int) (s : AppState) (v name : String) (g : GeoJSON),
      (v ≠ "" →
        (step net now s (.selectFile v)).1.isPolygonEditing = false
        ∧ (step net now s (.selectFile v)).1.isPointsEditing = false)
      ∧ ((step net now s (.selectSchool v)).1.isPolygonEditing = false
        ∧ (step net now s (.selectSchool v)).1.isPointsEditing = false)
      ∧ ((step net now s (.selectHistory v)).1.isPolygonEditing = false
        ∧ (step net now s (.selectHistory v)).1.isPointsEditing = false)
      ∧ ((step net now s (.openLocalFile name (some g))).1.isPolygonEditing = false
        ∧ (step net now s (.openLocalFile name (some g))).1.isPointsEditing = false)
      ∧ (isSchoolFilterActive s = true
          ∨ layerHasOverlays s.currentPolygonLayer = false →
          (step net now s .editPolygonClick).1.isPolygonEditing = s.isPolygonEditing)
      ∧ (isSchoolFilterActive s = true
          ∨ layerHasOverlays s.currentPointsLayer = false →
          (step net now s .editPointsClick).1.isPointsEditing = s.isPointsEditing) := by
  intro net now s v name g
  refine ⟨?_, ?_, ?_, ?_, ?_, ?_⟩
  · intro hv
    constructor <;> simp [step, hv]
  · constructor <;> simp [step]
  · by_cases hv : v = "" <;> constructor <;> simp [step, hv]
  · constructor <;> simp [step]
  · intro h
    rcases h with h | h
    · by_cases hl : layerHasOverlays s.currentPolygonLayer
      · simp [step, togglePolygonEditing, h, hl]
      · simp [step, togglePolygonEditing, hl]
    · simp [step, togglePolygonEditing, h]
  · intro h
    rcases h with h | h
    · by_cases hl : layerHasOverlays s.currentPointsLayer
      · simp [step, togglePointsEditing, h, hl]
      · simp [step, togglePointsEditing, hl]
    · simp [step, togglePointsEditing, h]

theorem edit_session_guards_witness :
    (step cxNet 0 initState (.selectFile "A")).1.isPointsEditing = false
    ∧ (step cxNet 0 initState .editPointsClick).1.isPointsEditing
        = initState.isPointsEditing :=
  have h := edit_session_guards cxNet 0 initState "A" "f" fcA
  ⟨(h.1 (by decide)).2, h.2.2.2.2.2 (Or.inr (by decide))⟩

/-! ### Original-snapshot update policy (C1) -/

/-- Local-file state with a MultiPolygon collection loaded (and hence
`originalPolygonGeoJSON = some fcMP`), reached from the initial state. -/
def c1State : AppState :=
  (runEvents cxNet [(0, .openLocalFile "loc.geojson" (some fcMP))] initState).1

/-- C1 counterexample: clicking save-polygon on a local-sourced file is
rejected by the file-context guard — the status explains that local files
cannot be saved and no HTTP request is issued — and yet the polygon layer's
original snapshot is overwritten with the overlay read-back (here the
MultiPolygon snapshot is replaced by two split Polygon features). -/
theorem snapshot_update_counterexample :
    c1State.currentFileSource = "local"
    ∧ c1State.originalPolygonGeoJSON = some fcMP
    ∧ (step cxNet 1 c1State .savePolygonClick).2 = []
    ∧ (step cxNet 1 c1State .savePolygonClick).1.status
        = "本地文件仅预览，无法保存到服务器"
    ∧ (step cxNet 1 c1State .savePolygonClick).1.originalPolygonGeoJSON
        ≠ some fcMP := by
  decide

/-- Events that never change the polygon layer's original snapshot: every
event except the file loads (select, reload, local open, reset on server
source, history promotion, clearing the history selection) and the
polygon-save click. -/
def polygonSnapshotInert : Event → Bool
  | .refreshListClick => true
  | .togglePointsBox _ => true
  | .toggleItemsBox _ => true
  | .editPolygonClick => true
  | .editPointsClick => true
  | .savePointsClick => true
  | .saveDbClick => true
  | .selectSchool _ => true
  | .markerPromptEdit _ _ => true
  | .polygonDrag _ _ => true
  | .selectHistory v => v != ""
  | _ => false

/-- Events that never change the points layer's original snapshot. -/
def pointsSnapshotInert : Event → Bool
  | .refreshListClick => true
  | .toggleItemsBox _ => true
  | .togglePointsBox c => !c
  | .editPolygonClick => true
  | .editPointsClick => true
  | .savePolygonClick => true
  | .saveDbClick => true
  | .markerPromptEdit _ _ => true
  | .polygonDrag _ _ => true
  | .openLocalFile _ _ => true
  | .selectHistory v => v != ""
  | _ => false

/-- Events that never change the items layer's original snapshot. -/
def itemsSnapshotInert : Event → Bool
  | .refreshListClick => true
  | .togglePointsBox _ => true
  | .toggleItemsBox c => !c
  | .editPolygonClick => true
  | .editPointsClick => true
  | .savePolygonClick => true
  | .savePointsClick => true
  | .saveDbClick => true
  | .markerPromptEdit _ _ => true
  | .polygonDrag _ _ => true
  | .openLocalFile _ _ => true
  | .selectHistory v => v != ""
  | .restoreHistoryClick => true
  | _ => false

@[simp] theorem cloneGeoJSON_eq (o : Option GeoJSON) : cloneGeoJSON o = o := rfl

set_option maxHeartbeats 2000000 in
/-- C1 (amended): a layer's original snapshot is changed only by a fresh
load (file selection or reload, local open, history view/promotion, reset,
the conditional layer loads of the visibility toggles and the school filter)
or by that layer's save click; all other events leave it unchanged.  A save
click rejected by the school-filter guard or with an empty layer leaves the
snapshot unchanged and issues no request, and a save whose POST fails leaves
it unchanged; a save that passes those guards overwrites the snapshot with
the current overlay read-back when the POST succeeds — but also, issuing no
request at all, when the file context is not server-sourced (the deviation
shown by the counterexample). -/
theorem snapshot_update_policy :
    ∀ (net : Net) (now : Int) (s : AppState) (e : Event) (f : String) (c : Nat),
      (polygonSnapshotInert e = true →
        (step net now s e).1.originalPolygonGeoJSON = s.originalPolygonGeoJSON)
      ∧ (pointsSnapshotInert e = true →
        (step net now s e).1.originalPointsGeoJSON = s.originalPointsGeoJSON)
      ∧ (itemsSnapshotInert e = true →
        (step net now s e).1.originalItemsGeoJSON = s.originalItemsGeoJSON)
      ∧ (isSchoolFilterActive s = true
          ∨ layerHasOverlays s.currentPolygonLayer = false →
        (step net now s .savePolygonClick).1.originalPolygonGeoJSON
            = s.originalPolygonGeoJSON
        ∧ (step net now s .savePolygonClick).2 = [])
      ∧ (isSchoolFilterActive s = false →
         layerHasOverlays s.currentPolygonLayer = true →
         s.currentFileName = some f → s.currentFileSource = "server" →
         net.save ("/api/polygons/" ++ f) = .httpError c →
        (step net now s .savePolygonClick).1.originalPolygonGeoJSON
          = s.originalPolygonGeoJSON)
      ∧ (isSchoolFilterActive s = false →
         layerHasOverlays s.currentPolygonLayer = true →
         s.currentFileName = some f → s.currentFileSource = "server" →
         net.save ("/api/polygons/" ++ f) = .ok () →
        (step net now s .savePolygonClick).1.originalPolygonGeoJSON
          = some (overlaysToGeoJSON s.currentPolygonLayer "Polygon"))
      ∧ (isSchoolFilterActive s = false →
         layerHasOverlays s.currentPolygonLayer = true →
         s.currentFileName.isNone ∨ s.currentFileSource ≠ "server" →
        (step net now s .savePolygonClick).1.originalPolygonGeoJSON
          = some (overlaysToGeoJSON s.currentPolygonLayer "Polygon")
        ∧ (step net now s .savePolygonClick).2 = [])
      ∧ (isSchoolFilterActive s = true
          ∨ layerHasOverlays s.currentPointsLayer = false →
        (step net now s .savePointsClick).1.originalPointsGeoJSON
            = s.originalPointsGeoJSON
        ∧ (step net now s .savePointsClick).2 = [])
      ∧ (isSchoolFilterActive s = false →
         layerHasOverlays s.currentPointsLayer = true →
         s.currentFileName = some f → s.currentFileSource = "server" →
         net.save ("/api/points/" ++ f) = .httpError c →
        (step net now s .savePointsClick).1.originalPointsGeoJSON
          = s.originalPointsGeoJSON)
      ∧ (isSchoolFilterActive s = false →
         layerHasOverlays s.currentPointsLayer = true →
         s.currentFileName = some f → s.currentFileSource = "server" →
         net.save ("/api/points/" ++ f) = .ok () →
        (step net now s .savePointsClick).1.originalPointsGeoJSON
          = some (overlaysToGeoJSON s.currentPointsLayer "Point"))
      ∧ (isSchoolFilterActive s = false →
         layerHasOverlays s.currentPointsLayer = true →
         s.currentFileName.isNone ∨ s.currentFileSource ≠ "server" →
        (step net now s .savePointsClick).1.originalPointsGeoJSON
          = some (overlaysToGeoJSON s.currentPointsLayer "Point")
        ∧ (step net now s .savePointsClick).2 = []) := by
  intro net now s e f c
  refine ⟨?_, ?_, ?_, ?_, ?_, ?_, ?_, ?_, ?_, ?_, ?_⟩
  · intro he
    cases e with
    | selectHistory v =>
      have hv : v ≠ "" := by simpa [polygonSnapshotInert, bne_iff_ne] using he
      simp only [step]
      rw [if_neg hv]
      simp
    | refreshListClick =>
      simp only [step]
      simp
    | togglePointsBox cb =>
      simp only [step]
      repeat' split
      all_goals simp
    | toggleItemsBox cb =>
      simp only [step]
      repeat' split
      all_goals simp
    | editPolygonClick => simp [step]
    | editPointsClick => simp [step]
    | savePointsClick => simp [step]
    | saveDbClick => simp [step]
    | selectSchool v => simp [step]
    | markerPromptEdit i inp => simp [step]
    | polygonDrag i p => simp [step]
    | selectFile v => simp [polygonSnapshotInert] at he
    | reloadClick => simp [polygonSnapshotInert] at he
    | savePolygonClick => simp [polygonSnapshotInert] at he
    | resetEditsClick => simp [polygonSnapshotInert] at he
    | restoreHistoryClick => simp [polygonSnapshotInert] at he
    | openLocalFile n p => simp [polygonSnapshotInert] at he
  · intro he
    cases e with
    | selectHistory v =>
      have hv : v ≠ "" := by simpa [pointsSnapshotInert, bne_iff_ne] using he
      simp only [step]
      rw [if_neg hv]
      simp
    | togglePointsBox cb =>
      have hc : cb = false := by simpa [pointsSnapshotInert] using he
      subst hc
      simp [step]
    | refreshListClick =>
      simp only [step]
      simp
    | toggleItemsBox cb =>
      simp only [step]
      repeat' split
      all_goals simp
    | editPolygonClick => simp [step]
    | editPointsClick => simp [step]
    | savePolygonClick => simp [step]
    | saveDbClick => simp [step]
    | markerPromptEdit i inp => simp [step]
    | polygonDrag i p => simp [step]
    | openLocalFile n p =>
      simp only [step]
      repeat' split
      all_goals simp
    | selectFile v => simp [pointsSnapshotInert] at he
    | reloadClick => simp [pointsSnapshotInert] at he
    | savePointsClick => simp [pointsSnapshotInert] at he
    | resetEditsClick => simp [pointsSnapshotInert] at he
    | restoreHistoryClick => simp [pointsSnapshotInert] at he
    | selectSchool v => simp [pointsSnapshotInert] at he
  · intro he
    cases e with
    | selectHistory v =>
      have hv : v ≠ "" := by simpa [itemsSnapshotInert, bne_iff_ne] using he
      simp only [step]
      rw [if_neg hv]
      simp
    | toggleItemsBox cb =>
      have hc : cb = false := by simpa [itemsSnapshotInert] using he
      subst hc
      simp [step]
    | togglePointsBox cb =>
      simp only [step]
      repeat' split
      all_goals simp
    | refreshListClick =>
      simp only [step]
      simp
    | editPolygonClick => simp [step]
    | editPointsClick => simp [step]
    | savePolygonClick => simp [step]
    | savePointsClick => simp [step]
    | saveDbClick => simp [step]
    | markerPromptEdit i inp => simp [step]
    | polygonDrag i p => simp [step]
    | openLocalFile n p =>
      simp only [step]
      repeat' split
      all_goals simp
    | restoreHistoryClick => simp [step]
    | selectFile v => simp [itemsSnapshotInert] at he
    | reloadClick => simp [itemsSnapshotInert] at he
    | resetEditsClick => simp [itemsSnapshotInert] at he
    | selectSchool v => simp [itemsSnapshotInert] at he
  · intro h
    rcases h with h | h
    · constructor <;> simp [step, savePolygonClickHandler, h]
    · by_cases hf : isSchoolFilterActive s
      · constructor <;> simp [step, savePolygonClickHandler, hf]
      · constructor <;> simp [step, savePolygonClickHandler, hf, h]
  · intro hfa hl hname hsrc hsave
    simp only [step, savePolygonClickHandler, hfa, Bool.false_eq_true, if_false,
      hl, Bool.not_true, saveGeoJSON, hname, hsrc, optStr]
    simp [hsave]
  · intro hfa hl hname hsrc hsave
    simp only [step, savePolygonClickHandler, hfa, Bool.false_eq_true, if_false,
      hl, Bool.not_true, saveGeoJSON, hname, hsrc, optStr]
    simp [hsave]
  · intro hfa hl hsrc
    have hg : (s.currentFileName.isNone || (s.currentFileSource != "server")) = true := by
      rcases hsrc with h | h
      · simp [h]
      · simp [bne_iff_ne, h]
    constructor <;>
      simp [step, savePolygonClickHandler, hfa, hl, saveGeoJSON, hg]
  · intro h
    rcases h with h | h
    · constructor <;> simp [step, savePointsClickHandler, h]
    · by_cases hf : isSchoolFilterActive s
      · constructor <;> simp [step, savePointsClickHandler, hf]
      · constructor <;> simp [step, savePointsClickHandler, hf, h]
  · intro hfa hl hname hsrc hsave
    simp only [step, savePointsClickHandler, hfa, Bool.false_eq_true, if_false,
      hl, Bool.not_true, saveGeoJSON, hname, hsrc, optStr]
    simp [hsave]
  · intro hfa hl hname hsrc hsave
    simp only [step, savePointsClickHandler, hfa, Bool.false_eq_true, if_false,
      hl, Bool.not_true, saveGeoJSON, hname, hsrc, optStr]
    simp [hsave]
  · intro hfa hl hsrc
    have hg : (s.currentFileName.isNone || (s.currentFileSource != "server")) = true := by
      rcases hsrc with h | h
      · simp [h]
      · simp [bne_iff_ne, h]
    constructor <;>
      simp [step, savePointsClickHandler, hfa, hl, saveGeoJSON, hg]

theorem snapshot_update_policy_witness :
    (step cxNet 1 c1State .savePolygonClick).1.originalPolygonGeoJSON
      = some (overlaysToGeoJSON c1State.currentPolygonLayer "Polygon")
    ∧ (step cxNet 1 c1State .savePolygonClick).2 = [] :=
  (snapshot_update_policy cxNet 1 c1State .savePolygonClick "A" 0).2.2.2.2.2.2.1
    (by decide) (by decide) (Or.inr (by decide))
